import Mathlib

/-
Shallow embedding of the retrievo-backend item lifecycle and moderation
engine (src/app): data model (src/app/models), identity resolution
(src/app/utils/auth_helper.py) and the item, profile, auth and admin
routers (src/app/routers).  Machine integers, timestamps and UUIDs are
modelled as Nat; fallible endpoints return Except.
-/

namespace Retrievo

/-! ## Enumerations (src/app/models) -/

inductive ItemType | lost | found
deriving DecidableEq, Repr

inductive VisibilityType | public | boys | girls
deriving DecidableEq, Repr

inductive HiddenReasonType | auto_report_threshold | admin_moderation
deriving DecidableEq, Repr

inductive HostelType | boys | girls
deriving DecidableEq, Repr

inductive RoleType | user | admin
deriving DecidableEq, Repr

inductive ReportReason | spam | inappropriate | harassment | fake | other
deriving DecidableEq, Repr

inductive ReportStatus | pending | reviewed
deriving DecidableEq, Repr

inductive StatusType | pending | approved | rejected
deriving DecidableEq, Repr

inductive NotificationType
  | claim_created | claim_approved | claim_rejected | system_notice | warning_issued
deriving DecidableEq, Repr

/-! ## Rows (src/app/models/user.py, item.py, report.py, resolution.py, notification.py) -/

structure User where
  id : Nat
  public_id : String
  created_at : Nat
  name : String
  image : String
  email : String
  phone : Option String
  hostel : Option HostelType
  role : RoleType
  warning_count : Nat
  is_banned : Bool
  ban_reason : Option String
  ban_until : Option Nat
deriving DecidableEq, Repr

structure Item where
  id : Nat
  created_at : Nat
  user_id : Nat
  title : String
  category : String
  description : String
  location : String
  type : ItemType
  date : Nat
  image : String
  visibility : VisibilityType
  is_hidden : Bool
  hidden_reason : Option HiddenReasonType
deriving DecidableEq, Repr

structure Report where
  id : Nat
  created_at : Nat
  user_id : Nat
  item_id : Nat
  reason : ReportReason
  status : ReportStatus
  reviewed_by : Option Nat
  reviewed_at : Option Nat
deriving DecidableEq, Repr

structure Resolution where
  id : Nat
  created_at : Nat
  claimant_id : Nat
  found_item_id : Nat
  status : StatusType
  claim_description : String
  rejection_reason : Option String
  decided_at : Option Nat
deriving DecidableEq, Repr

structure Notification where
  id : Nat
  created_at : Nat
  user_id : Nat
  type : NotificationType
  title : String
  message : String
  item_id : Option Nat
  resolution_id : Option Nat
  is_read : Bool
deriving DecidableEq, Repr

/-- The relational store: one list per table. -/
structure DB where
  users : List User
  items : List Item
  reports : List Report
  resolutions : List Resolution
  notifications : List Notification
deriving DecidableEq, Repr

/-- An HTTPException raised by an endpoint: status code and detail string. -/
structure HTTPError where
  status : Nat
  detail : String
deriving DecidableEq, Repr

/-- Decoded JWT payload fields the routers consume (sub, hostel, role claims;
issued by google_auth from the db user at token time). -/
structure TokenPayload where
  sub : String
  hostel : Option HostelType
  role : RoleType
deriving DecidableEq, Repr

/-! ## Identity resolution (src/app/utils/auth_helper.py) -/

/-- get_db_user: look up the persisted user by public_id = token sub;
raises 404 when the user is missing or banned. -/
def get_db_user (db : DB) (sub : String) : Except HTTPError User :=
  match db.users.find? (fun u => u.public_id == sub) with
  | none => Except.error ⟨404, "User not found"⟩
  | some u => if u.is_banned then Except.error ⟨404, "User not found"⟩ else Except.ok u

/-- require_admin: get_db_user then a persisted-role check. -/
def require_admin (db : DB) (sub : String) : Except HTTPError User :=
  match get_db_user db sub with
  | Except.error e => Except.error e
  | Except.ok u =>
      if u.role != RoleType.admin then Except.error ⟨403, "Admin access required"⟩
      else Except.ok u

/-! ## Shared query helpers -/

/-- First item row with the given id (session.get(Item, item_id) / WHERE Item.id == item_id). -/
def getItemRow (db : DB) (i : Nat) : Option Item :=
  db.items.find? (fun it => it.id == i)

/-- First item row with the given id that is not hidden (WHERE Item.id == i AND Item.is_hidden == False). -/
def getVisibleItemRow (db : DB) (i : Nat) : Option Item :=
  db.items.find? (fun it => it.id == i && !it.is_hidden)

/-- The SQL comparison Item.visibility == hostel, where the hostel tag is the
viewer affiliation string (or NULL for anonymous viewers). -/
def hostelToVis : HostelType → VisibilityType
  | HostelType.boys => VisibilityType.boys
  | HostelType.girls => VisibilityType.girls

def hostelMatches (vis : VisibilityType) (hostel : Option HostelType) : Bool :=
  match hostel with
  | some h => vis == hostelToVis h
  | none => false

/-- First active resolution of an item (outer join on found_item_id with
status IN (pending, approved)). -/
def activeResolutionRow (db : DB) (i : Nat) : Option Resolution :=
  db.resolutions.find? (fun r =>
    r.found_item_id == i && (r.status == StatusType.pending || r.status == StatusType.approved))

def statusStr : StatusType → String
  | StatusType.pending => "pending"
  | StatusType.approved => "approved"
  | StatusType.rejected => "rejected"

/-! ## Item detail fetch (src/app/routers/items.py get_item) -/

structure GetItemResponse where
  item : Item
  reporter_public_id : String
  reporter_name : String
  claim_status : String
deriving DecidableEq, Repr

def get_item (db : DB) (item_id : Nat) (current_user : Option TokenPayload) :
    Except HTTPError GetItemResponse :=
  let hostel : Option HostelType := current_user.bind TokenPayload.hostel
  let is_admin : Bool :=
    match current_user with
    | some cu => cu.role == RoleType.admin
    | none => false
  let row :=
    (db.items.find? (fun it => it.id == item_id && (is_admin || !it.is_hidden))).bind
      (fun it => (db.users.find? (fun u => u.id == it.user_id)).map (fun u => (it, u)))
  match row with
  | none => Except.error ⟨404, "Item not found"⟩
  | some (item, owner) =>
    let claim_status :=
      match activeResolutionRow db item.id with
      | some r => statusStr r.status
      | none => "none"
    if item.visibility != VisibilityType.public && !(hostelMatches item.visibility hostel) then
      Except.error ⟨403, "Unauthorized to view this item"⟩
    else
      Except.ok ⟨item, owner.public_id, owner.name, claim_status⟩

/-! ## Item listing (src/app/routers/items.py get_all_items) -/

/-- Insertion step for ORDER BY created_at DESC. -/
def insertByDateDesc (x : Item) : List Item → List Item
  | [] => [x]
  | y :: ys => if y.created_at ≤ x.created_at then x :: y :: ys else y :: insertByDateDesc x ys

def sortByDateDesc : List Item → List Item
  | [] => []
  | x :: xs => insertByDateDesc x (sortByDateDesc xs)

structure ListResponse where
  items : List Item
  total : Nat
  page : Nat
  limit : Nat
  has_more : Bool
deriving DecidableEq, Repr

/-- The listing filter: is_hidden == False and visibility in (hostel, public);
the hostel comes from the token claim. -/
def listingVisible (hostel : Option HostelType) (it : Item) : Bool :=
  !it.is_hidden &&
    (match hostel with
     | some h => it.visibility == hostelToVis h || it.visibility == VisibilityType.public
     | none => it.visibility == VisibilityType.public)

def get_all_items (db : DB) (page limit : Nat) (current_user : Option TokenPayload) :
    ListResponse :=
  let hostel : Option HostelType := current_user.bind TokenPayload.hostel
  let base := db.items.filter (listingVisible hostel)
  let total := base.length
  let offset := (page - 1) * limit
  let pageItems := ((sortByDateDesc base).drop offset).take limit
  { items := pageItems, total := total, page := page, limit := limit,
    has_more := decide (offset + pageItems.length < total) }

/-! ## Profile item listing (src/app/routers/profile.py get_profile) -/

structure ProfileResponse where
  user_name : String
  user_email : String
  lost_items : List Item
  found_items : List Item
deriving DecidableEq, Repr

/-- The profile item filter: Item.user_id == profile_user.id and visibility in
(hostel, public); the viewer hostel is re-resolved from the users table.
There is no is_hidden filter in this query. -/
def profileItemVisible (profileUserId : Nat) (hostel : Option HostelType) (it : Item) : Bool :=
  it.user_id == profileUserId &&
    (match hostel with
     | some h => it.visibility == hostelToVis h || it.visibility == VisibilityType.public
     | none => it.visibility == VisibilityType.public)

def get_profile (db : DB) (public_id : String) (current_user : Option TokenPayload) :
    Except HTTPError ProfileResponse :=
  match db.users.find? (fun u => u.public_id == public_id) with
  | none => Except.error ⟨404, "User not found"⟩
  | some profile_user =>
    let hostel : Option HostelType :=
      match current_user with
      | some cu => (db.users.find? (fun u => u.public_id == cu.sub)).bind User.hostel
      | none => none
    let items := db.items.filter (profileItemVisible profile_user.id hostel)
    Except.ok
      { user_name := profile_user.name,
        user_email := profile_user.email,
        lost_items := items.filter (fun it => it.type == ItemType.lost),
        found_items := items.filter (fun it => it.type == ItemType.found) }

/-! ## Item update (src/app/routers/items.py update_item) -/

/-- ItemUpdateSchema (src/app/schemas/items_schemas.py): every field optional;
model_dump(exclude_unset=True) keeps only the supplied ones. -/
structure ItemUpdateSchema where
  title : Option String
  location : Option String
  description : Option String
  category : Option String
  visibility : Option VisibilityType
  date : Option Nat
deriving DecidableEq, Repr

/-- setattr(item, field, value) for each supplied field. -/
def applyUpdates (it : Item) (u : ItemUpdateSchema) : Item :=
  { it with
    title := u.title.getD it.title,
    location := u.location.getD it.location,
    description := u.description.getD it.description,
    category := u.category.getD it.category,
    visibility := u.visibility.getD it.visibility,
    date := u.date.getD it.date }

/-- update_data is nonempty. -/
def hasAnyField (u : ItemUpdateSchema) : Bool :=
  u.title.isSome || u.location.isSome || u.description.isSome ||
    u.category.isSome || u.visibility.isSome || u.date.isSome

def update_item (db : DB) (item_id : Nat) (updates : ItemUpdateSchema) (sub : String) :
    Except HTTPError (DB × Nat) :=
  match db.items.find? (fun it => it.id == item_id && !it.is_hidden) with
  | none => Except.error ⟨404, "Item not found"⟩
  | some item =>
    if (activeResolutionRow db item.id).isSome then
      Except.error ⟨400, "Cannot update item while it has a pending or approved claim"⟩
    else
      match get_db_user db sub with
      | Except.error e => Except.error e
      | Except.ok user =>
        if item.user_id != user.id then
          Except.error ⟨403, "Unauthorized to update this item"⟩
        else if !hasAnyField updates then
          Except.error ⟨400, "No fields provided for update"⟩
        else
          Except.ok
            ({ db with items :=
                db.items.map (fun it => if it.id == item.id then applyUpdates it updates else it) },
             item.id)

/-! ## Item delete (src/app/routers/items.py delete_item)

The source filters with the Python expression (Item.is_hidden is False): an
identity comparison between the column object and the False singleton, which
evaluates to the Python constant False, so the query carries WHERE false and
matches no row.  Blob deletions are recorded in deleted_blobs. -/

structure BlobLog where
  deleted_blobs : List String
deriving DecidableEq, Repr

def delete_item (db : DB) (blobs : BlobLog) (item_id : Nat) (sub : String) :
    Except HTTPError (DB × BlobLog × Bool) :=
  match db.items.find? (fun it => it.id == item_id && false) with
  | none => Except.error ⟨404, "Item not found"⟩
  | some item =>
    match get_db_user db sub with
    | Except.error e => Except.error e
    | Except.ok user =>
      if item.user_id != user.id then
        Except.error ⟨403, "Unauthorized to delete this item"⟩
      else
        Except.ok
          ({ db with
             items := db.items.filter (fun it => it.id != item.id),
             reports := db.reports.filter (fun r => r.item_id != item.id),
             resolutions := db.resolutions.filter (fun r => r.found_item_id != item.id) },
           { deleted_blobs := blobs.deleted_blobs ++ [item.image] },
           true)

/-! ## Report an item (src/app/routers/items.py report_item) -/

def freshReportId (db : DB) : Nat :=
  (db.reports.map Report.id).foldr max 0 + 1

def freshNotificationId (db : DB) : Nat :=
  (db.notifications.map Notification.id).foldr max 0 + 1

def pendingReportCount (db : DB) (i : Nat) : Nat :=
  (db.reports.filter (fun r => r.item_id == i && r.status == ReportStatus.pending)).length

def report_item (db : DB) (id : Nat) (reason : ReportReason) (sub : String) (now : Nat) :
    Except HTTPError (DB × Bool) :=
  match db.items.find? (fun it => it.id == id && !it.is_hidden) with
  | none => Except.error ⟨404, "Item not found"⟩
  | some item =>
    match get_db_user db sub with
    | Except.error e => Except.error e
    | Except.ok user =>
      if item.user_id == user.id then
        Except.error ⟨400, "Cannot report your own item"⟩
      else if db.reports.any (fun r => r.user_id == user.id && r.item_id == item.id) then
        -- uq_user_item_report: the commit raises IntegrityError, rolled back to 409
        Except.error ⟨409, "You have already reported this item"⟩
      else
        let report : Report :=
          { id := freshReportId db, created_at := now, user_id := user.id,
            item_id := item.id, reason := reason, status := ReportStatus.pending,
            reviewed_by := none, reviewed_at := none }
        let db1 := { db with reports := db.reports ++ [report] }
        if 5 ≤ pendingReportCount db1 item.id then
          let hiddenItem :=
            { item with is_hidden := true,
                        hidden_reason := some HiddenReasonType.auto_report_threshold }
          let notif : Notification :=
            { id := freshNotificationId db1, created_at := now, user_id := item.user_id,
              type := NotificationType.system_notice,
              title := "Your item has been hidden",
              message := "Your item " ++ item.title ++
                " has been hidden due to multiple reports from users.",
              item_id := some item.id, resolution_id := none, is_read := false }
          Except.ok
            ({ db1 with
               items := db1.items.map (fun it => if it.id == item.id then hiddenItem else it),
               notifications := db1.notifications ++ [notif] },
             true)
        else
          Except.ok (db1, true)

/-! ## Admin user moderation (src/app/routers/admin.py moderate_user) -/

inductive ModerateUserAction | warn | temp_ban | unban
deriving DecidableEq, Repr

def moderate_user (db : DB) (user_id : Nat) (action : ModerateUserAction)
    (reason : Option String) (ban_days : Option Nat) (adminSub : String) (now : Nat) :
    Except HTTPError (DB × String) :=
  match require_admin db adminSub with
  | Except.error e => Except.error e
  | Except.ok _ =>
    match db.users.find? (fun u => u.id == user_id) with
    | none => Except.error ⟨404, "User not found"⟩
    | some user =>
      match action with
      | ModerateUserAction.warn =>
        let notif : Notification :=
          { id := freshNotificationId db, created_at := now, user_id := user.id,
            type := NotificationType.warning_issued, title := "Warning Issued",
            message := reason.getD "You have received a warning from the admin team.",
            item_id := none, resolution_id := none, is_read := false }
        Except.ok
          ({ db with
             users := db.users.map (fun u =>
               if u.id == user.id then { u with warning_count := u.warning_count + 1 } else u),
             notifications := db.notifications ++ [notif] },
           "User warn applied successfully")
      | ModerateUserAction.temp_ban =>
        let days := ban_days.getD 7
        Except.ok
          ({ db with
             users := db.users.map (fun u =>
               if u.id == user.id then
                 { u with is_banned := true,
                          ban_reason := some (reason.getD "Temporary ban by admin"),
                          ban_until := some (now + days * 86400) }
               else u) },
           "User temp_ban applied successfully")
      | ModerateUserAction.unban =>
        Except.ok
          ({ db with
             users := db.users.map (fun u =>
               if u.id == user.id then
                 { u with is_banned := false, ban_reason := none, ban_until := none }
               else u) },
           "User unban applied successfully")

/-! ## Admin item moderation (src/app/routers/admin.py moderate_item) -/

inductive ModerateItemAction | hide | restore | delete
deriving DecidableEq, Repr

def moderate_item (db : DB) (blobs : BlobLog) (item_id : Nat) (action : ModerateItemAction)
    (adminSub : String) (now : Nat) : Except HTTPError (DB × BlobLog × String) :=
  match require_admin db adminSub with
  | Except.error e => Except.error e
  | Except.ok admin =>
    match db.items.find? (fun it => it.id == item_id) with
    | none => Except.error ⟨404, "Item not found"⟩
    | some item =>
      match action with
      | ModerateItemAction.hide =>
        Except.ok
          ({ db with
             items := db.items.map (fun it =>
               if it.id == item.id then
                 { it with is_hidden := true,
                           hidden_reason := some HiddenReasonType.admin_moderation }
               else it) },
           blobs, "Item hidden successfully")
      | ModerateItemAction.restore =>
        -- UPDATE reports SET status=reviewed, reviewed_by, reviewed_at
        -- WHERE item_id == item.id (no status filter in the source)
        Except.ok
          ({ db with
             items := db.items.map (fun it =>
               if it.id == item.id then
                 { it with is_hidden := false, hidden_reason := none }
               else it),
             reports := db.reports.map (fun r =>
               if r.item_id == item.id then
                 { r with status := ReportStatus.reviewed,
                          reviewed_by := some admin.id,
                          reviewed_at := some now }
               else r) },
           blobs, "Item restored successfully")
      | ModerateItemAction.delete =>
        -- session.delete(item): row removal cascades to reports and
        -- resolutions (ondelete CASCADE); no blob deletion in this branch
        Except.ok
          ({ db with
             items := db.items.filter (fun it => it.id != item.id),
             reports := db.reports.filter (fun r => r.item_id != item.id),
             resolutions := db.resolutions.filter (fun r => r.found_item_id != item.id) },
           blobs, "Item deleted successfully")

/-! ## Auth and profile mutators (src/app/routers/auth.py, profile.py) -/

def google_auth (db : DB) (google_id name picture email : String) (fresh_id : Nat) (now : Nat) :
    Except HTTPError DB :=
  match db.users.find? (fun u => u.public_id == google_id) with
  | some u =>
    if u.is_banned then Except.error ⟨403, "User is banned"⟩ else Except.ok db
  | none =>
    Except.ok
      { db with users := db.users ++
          [{ id := fresh_id, public_id := google_id, created_at := now, name := name,
             image := picture, email := email, phone := none, hostel := none,
             role := RoleType.user, warning_count := 0, is_banned := false,
             ban_reason := none, ban_until := none }] }

def set_hostel (db : DB) (sub : String) (hostel : HostelType) : Except HTTPError DB :=
  match get_db_user db sub with
  | Except.error e => Except.error e
  | Except.ok user =>
    Except.ok
      { db with users := db.users.map (fun u =>
          if u.id == user.id then { u with hostel := some hostel } else u) }

def set_phone (db : DB) (sub : String) (phone : String) : Except HTTPError DB :=
  match get_db_user db sub with
  | Except.error e => Except.error e
  | Except.ok user =>
    if user.phone.isSome then Except.error ⟨403, "Phone number already set"⟩
    else
      Except.ok
        { db with users := db.users.map (fun u =>
            if u.id == user.id then { u with phone := some phone } else u) }

/-! ## The mutating operations of the embedded system -/

inductive Op
  | update (item_id : Nat) (updates : ItemUpdateSchema) (sub : String)
  | delete (item_id : Nat) (sub : String)
  | report (item_id : Nat) (reason : ReportReason) (sub : String) (now : Nat)
  | moderateUser (user_id : Nat) (action : ModerateUserAction)
      (reason : Option String) (ban_days : Option Nat) (adminSub : String) (now : Nat)
  | moderateItem (item_id : Nat) (action : ModerateItemAction) (adminSub : String) (now : Nat)
  | googleAuth (google_id name picture email : String) (fresh_id : Nat) (now : Nat)
  | setHostel (sub : String) (hostel : HostelType)
  | setPhone (sub : String) (phone : String)
deriving DecidableEq, Repr

/-- Run one endpoint against the store: a failed request rolls back, leaving
the store unchanged. -/
def applyOp (db : DB) : Op → DB
  | Op.update item_id updates sub =>
    match update_item db item_id updates sub with
    | Except.ok (db2, _) => db2
    | Except.error _ => db
  | Op.delete item_id sub =>
    match delete_item db ⟨[]⟩ item_id sub with
    | Except.ok (db2, _, _) => db2
    | Except.error _ => db
  | Op.report item_id reason sub now =>
    match report_item db item_id reason sub now with
    | Except.ok (db2, _) => db2
    | Except.error _ => db
  | Op.moderateUser user_id action reason ban_days adminSub now =>
    match moderate_user db user_id action reason ban_days adminSub now with
    | Except.ok (db2, _) => db2
    | Except.error _ => db
  | Op.moderateItem item_id action adminSub now =>
    match moderate_item db ⟨[]⟩ item_id action adminSub now with
    | Except.ok (db2, _, _) => db2
    | Except.error _ => db
  | Op.googleAuth google_id name picture email fresh_id now =>
    match google_auth db google_id name picture email fresh_id now with
    | Except.ok db2 => db2
    | Except.error _ => db
  | Op.setHostel sub hostel =>
    match set_hostel db sub hostel with
    | Except.ok db2 => db2
    | Except.error _ => db
  | Op.setPhone sub phone =>
    match set_phone db sub phone with
    | Except.ok db2 => db2
    | Except.error _ => db

/-! ## Invariant predicates and declared storage constraints -/

/-- Pairwise-distinct item primary keys. -/
def idsUnique : List Item → Bool
  | [] => true
  | x :: xs => xs.all (fun y => x.id != y.id) && idsUnique xs

/-- Pairwise-distinct (user_id, item_id) pairs: the content of the
uq_user_item_report unique constraint (src/app/models/report.py). -/
def pairUnique : List Report → Bool
  | [] => true
  | r :: rs =>
    rs.all (fun s => !(r.user_id == s.user_id && r.item_id == s.item_id)) && pairUnique rs

def reportIdsUnique : List Report → Bool
  | [] => true
  | r :: rs => rs.all (fun s => r.id != s.id) && reportIdsUnique rs

def resolutionIdsUnique : List Resolution → Bool
  | [] => true
  | r :: rs => rs.all (fun s => r.id != s.id) && resolutionIdsUnique rs

/-- Every constraint declared on the reports table
(src/app/models/report.py): primary key on id, foreign keys user_id,
item_id and reviewed_by, and the uq_user_item_report unique constraint. -/
def reportsTableConstraintsOK (db : DB) : Bool :=
  reportIdsUnique db.reports && pairUnique db.reports &&
    db.reports.all (fun r =>
      db.users.any (fun u => u.id == r.user_id) &&
      db.items.any (fun it => it.id == r.item_id))

/-- Every constraint declared on the resolutions table
(src/app/models/resolution.py): primary key on id and foreign keys
claimant_id and found_item_id.  The model declares no table_args, so there
is no unique or exclusion constraint beyond these. -/
def resolutionsTableConstraintsOK (db : DB) : Bool :=
  resolutionIdsUnique db.resolutions &&
    db.resolutions.all (fun r =>
      db.users.any (fun u => u.id == r.claimant_id) &&
      db.items.any (fun it => it.id == r.found_item_id))

/-- Number of active (pending or approved) resolutions targeting an item. -/
def activeResolutionCount (db : DB) (i : Nat) : Nat :=
  (db.resolutions.filter (fun r =>
    r.found_item_id == i &&
      (r.status == StatusType.pending || r.status == StatusType.approved))).length

/-- The storage layer enforces claim exclusivity: any store state admitted by
the declared resolutions-table constraints has at most one active resolution
per item. -/
def StorageEnforcesActiveExclusivity : Prop :=
  ∀ db : DB, resolutionsTableConstraintsOK db = true → ∀ i, activeResolutionCount db i ≤ 1

/-- Number of system_notice notifications that reference an item: the
auto-hide owner notifications emitted by report_item. -/
def autoHideNotifCount (db : DB) (i : Nat) : Nat :=
  (db.notifications.filter (fun n =>
    n.type == NotificationType.system_notice && n.item_id == some i)).length

/-- Run a sequence of report attempts (reason, reporter sub, timestamp)
against one item. -/
def runReports (db : DB) (i : Nat) (ops : List (ReportReason × String × Nat)) : DB :=
  ops.foldl (fun d op => applyOp d (Op.report i op.1 op.2.1 op.2.2)) db

def isRestoreOp : Op → Bool
  | Op.moderateItem _ ModerateItemAction.restore _ _ => true
  | _ => false

def isItemDeleteOp : Op → Bool
  | Op.moderateItem _ ModerateItemAction.delete _ _ => true
  | _ => false

/-! ## Concrete store fixtures for witnesses and counterexamples -/

def mkUser (id : Nat) (pid : String) (hostel : Option HostelType) (role : RoleType)
    (banned : Bool) (ban_until : Option Nat) : User :=
  { id := id, public_id := pid, created_at := 0, name := "user", image := "",
    email := "", phone := none, hostel := hostel, role := role, warning_count := 0,
    is_banned := banned, ban_reason := none, ban_until := ban_until }

def mkItem (id uid : Nat) (ty : ItemType) (vis : VisibilityType) (hidden : Bool)
    (reason : Option HiddenReasonType) : Item :=
  { id := id, created_at := 0, user_id := uid, title := "t", category := "others",
    description := "d", location := "l", type := ty, date := 0, image := "img",
    visibility := vis, is_hidden := hidden, hidden_reason := reason }

def mkResolution (id cid iid : Nat) (st : StatusType) : Resolution :=
  { id := id, created_at := 0, claimant_id := cid, found_item_id := iid, status := st,
    claim_description := "a sufficiently long claim description", rejection_reason := none,
    decided_at := none }

def mkReport (id uid iid : Nat) (st : ReportStatus) : Report :=
  { id := id, created_at := 0, user_id := uid, item_id := iid, reason := ReportReason.spam,
    status := st, reviewed_by := none, reviewed_at := none }

/-- Two pending resolutions on the same found item, both with existing
claimants: satisfies every declared resolutions-table constraint. -/
def exDbC1 : DB :=
  { users := [mkUser 1 "o" none RoleType.user false none,
              mkUser 2 "c1" none RoleType.user false none,
              mkUser 3 "c2" none RoleType.user false none],
    items := [mkItem 1 1 ItemType.found VisibilityType.public false none],
    reports := [],
    resolutions := [mkResolution 1 2 1 StatusType.pending,
                    mkResolution 2 3 1 StatusType.pending],
    notifications := [] }

/-- A hidden public item: excluded from the item listing and the detail
fetch, but returned by the profile item listing. -/
def exDbC2 : DB :=
  { users := [mkUser 1 "o" none RoleType.user false none],
    items := [mkItem 1 1 ItemType.found VisibilityType.public true
                (some HiddenReasonType.admin_moderation)],
    reports := [], resolutions := [], notifications := [] }

/-- An unhidden item with five distinct non-owner reporters available. -/
def exDbC3 : DB :=
  { users := [mkUser 1 "o" none RoleType.user false none,
              mkUser 2 "r1" none RoleType.user false none,
              mkUser 3 "r2" none RoleType.user false none,
              mkUser 4 "r3" none RoleType.user false none,
              mkUser 5 "r4" none RoleType.user false none,
              mkUser 6 "r5" none RoleType.user false none],
    items := [mkItem 1 1 ItemType.found VisibilityType.public false none],
    reports := [], resolutions := [], notifications := [] }

def exOpsC3 : List (ReportReason × String × Nat) :=
  [(ReportReason.spam, "r1", 1), (ReportReason.spam, "r2", 2),
   (ReportReason.fake, "r3", 3), (ReportReason.other, "r4", 4),
   (ReportReason.spam, "r5", 5), (ReportReason.spam, "r5", 6)]

/-- One existing report by user 2 on item 1. -/
def exDbC4 : DB :=
  { users := [mkUser 1 "o" none RoleType.user false none,
              mkUser 2 "r" none RoleType.user false none],
    items := [mkItem 1 1 ItemType.found VisibilityType.public false none],
    reports := [mkReport 1 2 1 ReportStatus.pending],
    resolutions := [], notifications := [] }

/-- Item 1 carries a pending resolution; item 2 is free. -/
def exDbC5 : DB :=
  { users := [mkUser 1 "o" none RoleType.user false none,
              mkUser 2 "c" none RoleType.user false none],
    items := [mkItem 1 1 ItemType.found VisibilityType.public false none,
              mkItem 2 1 ItemType.lost VisibilityType.public false none],
    reports := [],
    resolutions := [mkResolution 1 2 1 StatusType.pending],
    notifications := [] }

def exUpdTitle : ItemUpdateSchema :=
  { title := some "new title", location := none, description := none,
    category := none, visibility := none, date := none }

/-- An existing, unhidden item owned by the caller, plus an admin; item 1
also carries a report and a resolution for the cascade check. -/
def exDbC6 : DB :=
  { users := [mkUser 1 "o" none RoleType.user false none,
              mkUser 2 "r" none RoleType.user false none,
              mkUser 9 "a" none RoleType.admin false none],
    items := [mkItem 1 1 ItemType.found VisibilityType.public false none],
    reports := [mkReport 1 2 1 ReportStatus.pending],
    resolutions := [mkResolution 1 2 1 StatusType.pending],
    notifications := [] }

/-- A hidden item with two pending reports and one already-reviewed report,
and an admin to restore it. -/
def exDbC7 : DB :=
  { users := [mkUser 1 "o" none RoleType.user false none,
              mkUser 2 "r1" none RoleType.user false none,
              mkUser 3 "r2" none RoleType.user false none,
              mkUser 9 "a" none RoleType.admin false none],
    items := [mkItem 1 1 ItemType.found VisibilityType.public true
                (some HiddenReasonType.admin_moderation)],
    reports := [mkReport 1 2 1 ReportStatus.pending,
                mkReport 2 3 1 ReportStatus.pending],
    resolutions := [], notifications := [] }

/-- A girls-visibility item: invisible in the detail fetch even to an admin
whose token carries no hostel. -/
def exDbC8 : DB :=
  { users := [mkUser 1 "o" (some HostelType.girls) RoleType.user false none],
    items := [mkItem 1 1 ItemType.found VisibilityType.girls false none],
    reports := [], resolutions := [], notifications := [] }

/-- A banned user (ban_until absent) next to an unhidden item of another user. -/
def exDbC9 : DB :=
  { users := [mkUser 1 "o" none RoleType.user false none,
              mkUser 2 "b" none RoleType.user true none],
    items := [mkItem 1 1 ItemType.found VisibilityType.public false none],
    reports := [], resolutions := [], notifications := [] }

/-- A banned user whose ban_until (10) already passed at any now ≥ 10. -/
def exDbC9b : DB :=
  { users := [mkUser 1 "o" none RoleType.user false none,
              mkUser 2 "b" none RoleType.user true (some 10)],
    items := [mkItem 1 1 ItemType.found VisibilityType.public false none],
    reports := [], resolutions := [], notifications := [] }

/-- exDbC5 after patching item 2 with exUpdTitle. -/
def exDbC5Updated : DB :=
  { exDbC5 with
    items := [mkItem 1 1 ItemType.found VisibilityType.public false none,
              { mkItem 2 1 ItemType.lost VisibilityType.public false none with
                  title := "new title" }] }

/-- exDbC7 after an admin (id 9) restore at time 100. -/
def exDbC7Restored : DB :=
  { exDbC7 with
    items := [mkItem 1 1 ItemType.found VisibilityType.public false none],
    reports := [{ mkReport 1 2 1 ReportStatus.reviewed with
                    reviewed_by := some 9, reviewed_at := some 100 },
                { mkReport 2 3 1 ReportStatus.reviewed with
                    reviewed_by := some 9, reviewed_at := some 100 }] }

/-- Invariant carried along a trace of report attempts on item i: item ids
stay unique, and the item is either still unhidden with no auto-hide
notification, or hidden with exactly one. -/
def C3Inv (i : Nat) (db : DB) : Prop :=
  idsUnique db.items = true ∧
    ((∃ it, getItemRow db i = some it ∧ it.is_hidden = false) ∧ autoHideNotifCount db i = 0 ∨
     (∃ it, getItemRow db i = some it ∧ it.is_hidden = true) ∧ autoHideNotifCount db i = 1)

/-- A hidden item owned by the caller. -/
def exDbC10 : DB :=
  { users := [mkUser 1 "o" none RoleType.user false none],
    items := [mkItem 1 1 ItemType.found VisibilityType.public true
                (some HiddenReasonType.auto_report_threshold)],
    reports := [], resolutions := [], notifications := [] }

/-! ## List helper lemmas -/

theorem mem_id_unique {l : List Item} (hu : idsUnique l = true) {x y : Item}
    (hx : x ∈ l) (hy : y ∈ l) (hxy : x.id = y.id) : x = y := by
  induction l with
  | nil => cases hx
  | cons z zs ih =>
    have hall : (zs.all (fun w => z.id != w.id)) = true := by
      have := hu
      simp only [idsUnique, Bool.and_eq_true] at this
      exact this.1
    have hzs : idsUnique zs = true := by
      simp only [idsUnique, Bool.and_eq_true] at hu
      exact hu.2
    rcases List.mem_cons.mp hx with hx1 | hx1 <;>
      rcases List.mem_cons.mp hy with hy1 | hy1
    · rw [hx1, hy1]
    · exfalso
      have := (List.all_eq_true.mp hall) y hy1
      rw [bne_iff_ne] at this
      exact this (hx1 ▸ hxy)
    · exfalso
      have := (List.all_eq_true.mp hall) x hx1
      rw [bne_iff_ne] at this
      exact this (hy1 ▸ hxy.symm)
    · exact ih hzs hx1 hy1

theorem find?_unique_pred {l : List Item} (hu : idsUnique l = true) {x : Item}
    (hx : x ∈ l) (p : Item → Bool) (hpx : p x = true)
    (hp : ∀ y, p y = true → y.id = x.id) : l.find? p = some x := by
  induction l with
  | nil => cases hx
  | cons z zs ih =>
    have hall : (zs.all (fun w => z.id != w.id)) = true := by
      simp only [idsUnique, Bool.and_eq_true] at hu
      exact hu.1
    have hzs : idsUnique zs = true := by
      simp only [idsUnique, Bool.and_eq_true] at hu
      exact hu.2
    cases hpz : p z with
    | true =>
      have hid : z.id = x.id := hp z hpz
      rcases List.mem_cons.mp hx with hx1 | hx1
      · simp [List.find?, hpz, hx1]
      · exfalso
        have := (List.all_eq_true.mp hall) x hx1
        rw [bne_iff_ne] at this
        exact this hid
    | false =>
      have hx1 : x ∈ zs := by
        rcases List.mem_cons.mp hx with hx1 | hx1
        · exact absurd (hx1 ▸ hpx) (by simp [hpz])
        · exact hx1
      simp [List.find?, hpz, ih hzs hx1]

theorem find?_map_cond (l : List Item) (i : Nat) (f : Item → Item)
    (hf : ∀ x : Item, x.id = i → (f x).id = i) :
    (l.map (fun x => if x.id == i then f x else x)).find? (fun it => it.id == i)
      = (l.find? (fun it => it.id == i)).map (fun x => if x.id == i then f x else x) := by
  induction l with
  | nil => rfl
  | cons z zs ih =>
    have hmap : List.map (fun x => if x.id == i then f x else x) (z :: zs)
        = (if z.id == i then f z else z) ::
            List.map (fun x => if x.id == i then f x else x) zs := rfl
    rw [hmap]
    cases hz : (z.id == i) with
    | true =>
      have hzi : z.id = i := beq_iff_eq.mp hz
      have hz2 : ((f z).id == i) = true := beq_iff_eq.mpr (hf z hzi)
      simp [List.find?, hz, hz2, hzi, -List.find?_map]
    | false =>
      have hzi : ¬ (z.id = i) := by simpa using hz
      simpa [List.find?, hz, hzi, -List.find?_map] using ih

theorem idsUnique_map (l : List Item) (g : Item → Item) (hg : ∀ x, (g x).id = x.id) :
    idsUnique (l.map g) = idsUnique l := by
  induction l with
  | nil => rfl
  | cons z zs ih =>
    simp only [List.map, idsUnique, List.all_map, ih]
    have : ((fun w => (g z).id != w.id) ∘ g) = fun w => z.id != w.id := by
      funext w
      simp [hg]
    rw [this]

theorem pairUnique_append_one (rs : List Report) (r : Report)
    (h : pairUnique rs = true)
    (hr : ∀ s ∈ rs, (s.user_id == r.user_id && s.item_id == r.item_id) = false) :
    pairUnique (rs ++ [r]) = true := by
  induction rs with
  | nil => simp [pairUnique]
  | cons x xs ih =>
    simp only [pairUnique, Bool.and_eq_true] at h
    have h1 : pairUnique (xs ++ [r]) = true :=
      ih h.2 (fun s hs => hr s (List.mem_cons_of_mem x hs))
    have hx := hr x (List.mem_cons_self x xs)
    have h2 : (xs ++ [r]).all
        (fun s => !(x.user_id == s.user_id && x.item_id == s.item_id)) = true := by
      refine List.all_eq_true.mpr fun s hs => ?_
      rcases List.mem_append.mp hs with hs1 | hs1
      · exact (List.all_eq_true.mp h.1) s hs1
      · have hsr : s = r := by simpa using hs1
        subst hsr
        cases hxu : (x.user_id == s.user_id) with
        | false => simp [hxu]
        | true =>
          cases hxi : (x.item_id == s.item_id) with
          | false => simp [hxu, hxi]
          | true => simp [hxu, hxi] at hx
    show pairUnique (x :: (xs ++ [r])) = true
    simp only [pairUnique, Bool.and_eq_true]
    exact ⟨h2, h1⟩

theorem pairUnique_filter (rs : List Report) (p : Report → Bool)
    (h : pairUnique rs = true) : pairUnique (rs.filter p) = true := by
  induction rs with
  | nil => exact h
  | cons x xs ih =>
    simp only [pairUnique, Bool.and_eq_true] at h
    cases hp : p x with
    | false => simpa [List.filter, hp] using ih h.2
    | true =>
      simp only [List.filter, hp, pairUnique, Bool.and_eq_true]
      refine ⟨?_, ih h.2⟩
      exact List.all_eq_true.mpr fun s hs =>
        (List.all_eq_true.mp h.1) s (List.mem_of_mem_filter hs)

theorem pairUnique_map_keys (rs : List Report) (g : Report → Report)
    (hg : ∀ r, (g r).user_id = r.user_id ∧ (g r).item_id = r.item_id)
    (h : pairUnique rs = true) : pairUnique (rs.map g) = true := by
  induction rs with
  | nil => exact h
  | cons x xs ih =>
    simp only [pairUnique, Bool.and_eq_true] at h
    simp only [List.map, pairUnique, Bool.and_eq_true, List.all_map]
    refine ⟨?_, ih h.2⟩
    refine List.all_eq_true.mpr fun s hs => ?_
    have := (List.all_eq_true.mp h.1) s hs
    simpa [Function.comp, (hg x).1, (hg x).2, (hg s).1, (hg s).2] using this

/-! ## Endpoint inversion lemmas -/

theorem if_bool_true {α : Sort u} {b : Bool} (h : b = true) (x y : α) :
    (if b = true then x else y) = x := by
  rw [h]
  simp

theorem if_bool_false {α : Sort u} {b : Bool} (h : b = false) (x y : α) :
    (if b = true then x else y) = y := by
  rw [h]
  simp

theorem delete_item_err (db : DB) (blobs : BlobLog) (item_id : Nat) (sub : String) :
    delete_item db blobs item_id sub = Except.error ⟨404, "Item not found"⟩ := by
  have hnone : db.items.find? (fun it => it.id == item_id && false) = none :=
    List.find?_eq_none.mpr (fun x _ => by simp)
  unfold delete_item
  rw [hnone]

theorem get_db_user_banned {db : DB} {sub : String} {u : User}
    (hfind : db.users.find? (fun v => v.public_id == sub) = some u)
    (hban : u.is_banned = true) :
    get_db_user db sub = Except.error ⟨404, "User not found"⟩ := by
  unfold get_db_user
  rw [hfind]
  simp [hban]

theorem require_admin_ok {db : DB} {sub : String} {u : User}
    (h : require_admin db sub = Except.ok u) :
    get_db_user db sub = Except.ok u ∧ u.role = RoleType.admin := by
  unfold require_admin at h
  split at h
  · cases h
  next heq =>
    split at h
    · cases h
    next hrole =>
      cases h
      refine ⟨heq, ?_⟩
      by_contra hne
      exact hrole (by
        cases hr : u.role <;> simp_all)

theorem update_item_ok_shape {db : DB} {i : Nat} {u : ItemUpdateSchema} {sub : String}
    {db2 : DB} {n : Nat} (h : update_item db i u sub = Except.ok (db2, n)) :
    db2.users = db.users ∧ db2.reports = db.reports ∧ db2.resolutions = db.resolutions ∧
    db2.notifications = db.notifications ∧
    ∃ item user,
      db.items.find? (fun it => it.id == i && !it.is_hidden) = some item ∧
      (activeResolutionRow db item.id).isSome = false ∧
      get_db_user db sub = Except.ok user ∧ item.user_id = user.id ∧
      hasAnyField u = true ∧
      db2.items = db.items.map (fun it => if it.id == item.id then applyUpdates it u else it) ∧
      n = item.id := by
  unfold update_item at h
  cases hfind : db.items.find? (fun it => it.id == i && !it.is_hidden) with
  | none => simp only [hfind] at h; exact Except.noConfusion h
  | some item =>
    simp only [hfind] at h
    cases hact : (activeResolutionRow db item.id).isSome with
    | true => rw [if_bool_true hact] at h; exact Except.noConfusion h
    | false =>
      rw [if_bool_false hact] at h
      cases huser : get_db_user db sub with
      | error e => simp only [huser] at h; exact Except.noConfusion h
      | ok user =>
        simp only [huser] at h
        cases howner : (item.user_id != user.id) with
        | true => rw [if_bool_true howner] at h; exact Except.noConfusion h
        | false =>
          rw [if_bool_false howner] at h
          cases hfields : (!hasAnyField u) with
          | true => rw [if_bool_true hfields] at h; exact Except.noConfusion h
          | false =>
            rw [if_bool_false hfields] at h
            simp only [Except.ok.injEq, Prod.mk.injEq] at h
            obtain ⟨hdb, hn⟩ := h
            subst hdb
            subst hn
            refine ⟨rfl, rfl, rfl, rfl, item, user, rfl, hact, rfl, ?_, ?_, rfl, rfl⟩
            · simpa using howner
            · simpa using hfields

theorem report_item_ok_shape {db : DB} {i : Nat} {reason : ReportReason} {sub : String}
    {now : Nat} {db2 : DB} {b : Bool} (h : report_item db i reason sub now = Except.ok (db2, b)) :
    ∃ item user,
      db.items.find? (fun it => it.id == i && !it.is_hidden) = some item ∧
      item.id = i ∧ item.is_hidden = false ∧
      get_db_user db sub = Except.ok user ∧
      (item.user_id == user.id) = false ∧
      db.reports.any (fun r => r.user_id == user.id && r.item_id == item.id) = false ∧
      db2.users = db.users ∧ db2.resolutions = db.resolutions ∧
      db2.reports = db.reports ++
        [{ id := freshReportId db, created_at := now, user_id := user.id, item_id := item.id,
           reason := reason, status := ReportStatus.pending,
           reviewed_by := none, reviewed_at := none }] ∧
      ((5 ≤ pendingReportCount db2 i ∧
          db2.items = db.items.map (fun it =>
            if it.id == item.id then
              { item with is_hidden := true,
                          hidden_reason := some HiddenReasonType.auto_report_threshold }
            else it) ∧
          db2.notifications = db.notifications ++
            [{ id := freshNotificationId { db with reports := db2.reports }, created_at := now,
               user_id := item.user_id, type := NotificationType.system_notice,
               title := "Your item has been hidden",
               message := "Your item " ++ item.title ++
                 " has been hidden due to multiple reports from users.",
               item_id := some item.id, resolution_id := none, is_read := false }]) ∨
       (pendingReportCount db2 i < 5 ∧
          db2.items = db.items ∧ db2.notifications = db.notifications)) := by
  unfold report_item at h
  cases hfind : db.items.find? (fun it => it.id == i && !it.is_hidden) with
  | none => simp only [hfind] at h; exact Except.noConfusion h
  | some item =>
    simp only [hfind] at h
    have hprops := List.find?_some hfind
    rw [Bool.and_eq_true] at hprops
    have hid : item.id = i := beq_iff_eq.mp hprops.1
    have hhid : item.is_hidden = false := by
      have := hprops.2
      cases hh : item.is_hidden
      · rfl
      · rw [hh] at this; exact absurd this (by simp)
    cases huser : get_db_user db sub with
    | error e => simp only [huser] at h; exact Except.noConfusion h
    | ok user =>
      simp only [huser] at h
      cases howner : (item.user_id == user.id) with
      | true => rw [if_bool_true howner] at h; exact Except.noConfusion h
      | false =>
        rw [if_bool_false howner] at h
        cases hdup : db.reports.any (fun r => r.user_id == user.id && r.item_id == item.id) with
        | true => rw [if_bool_true hdup] at h; exact Except.noConfusion h
        | false =>
          rw [if_bool_false hdup] at h
          by_cases hth : 5 ≤ pendingReportCount
              { db with reports := db.reports ++
                  [{ id := freshReportId db, created_at := now, user_id := user.id,
                     item_id := item.id, reason := reason, status := ReportStatus.pending,
                     reviewed_by := none, reviewed_at := none }] } item.id
          · rw [if_pos hth] at h
            simp only [Except.ok.injEq, Prod.mk.injEq] at h
            obtain ⟨hdb, hb⟩ := h
            subst hdb
            refine ⟨item, user, rfl, hid, hhid, rfl, howner, hdup, rfl, rfl, rfl,
              Or.inl ⟨?_, rfl, rfl⟩⟩
            rw [← hid]
            exact hth
          · rw [if_neg hth] at h
            simp only [Except.ok.injEq, Prod.mk.injEq] at h
            obtain ⟨hdb, hb⟩ := h
            subst hdb
            refine ⟨item, user, rfl, hid, hhid, rfl, howner, hdup, rfl, rfl, rfl,
              Or.inr ⟨?_, rfl, rfl⟩⟩
            rw [← hid]
            exact Nat.lt_of_not_le hth

theorem moderate_user_ok_shape {db : DB} {user_id : Nat} {action : ModerateUserAction}
    {reason : Option String} {ban_days : Option Nat} {adminSub : String} {now : Nat}
    {db2 : DB} {msg : String}
    (h : moderate_user db user_id action reason ban_days adminSub now = Except.ok (db2, msg)) :
    db2.items = db.items ∧ db2.reports = db.reports ∧ db2.resolutions = db.resolutions := by
  unfold moderate_user at h
  cases hadm : require_admin db adminSub with
  | error e => simp only [hadm] at h; exact Except.noConfusion h
  | ok admin =>
    simp only [hadm] at h
    cases hfindu : db.users.find? (fun u => u.id == user_id) with
    | none => simp only [hfindu] at h; exact Except.noConfusion h
    | some user =>
      simp only [hfindu] at h
      cases action with
      | warn =>
        simp only [Except.ok.injEq, Prod.mk.injEq] at h
        obtain ⟨hdb, _⟩ := h
        subst hdb
        exact ⟨rfl, rfl, rfl⟩
      | temp_ban =>
        simp only [Except.ok.injEq, Prod.mk.injEq] at h
        obtain ⟨hdb, _⟩ := h
        subst hdb
        exact ⟨rfl, rfl, rfl⟩
      | unban =>
        simp only [Except.ok.injEq, Prod.mk.injEq] at h
        obtain ⟨hdb, _⟩ := h
        subst hdb
        exact ⟨rfl, rfl, rfl⟩

theorem moderate_item_hide_shape {db : DB} {blobs : BlobLog} {i : Nat} {sub : String}
    {now : Nat} {db2 : DB} {blobs2 : BlobLog} {msg : String}
    (h : moderate_item db blobs i ModerateItemAction.hide sub now = Except.ok (db2, blobs2, msg)) :
    db2.users = db.users ∧ db2.reports = db.reports ∧ db2.resolutions = db.resolutions ∧
    db2.notifications = db.notifications ∧
    ∃ item, getItemRow db i = some item ∧
      db2.items = db.items.map (fun it =>
        if it.id == item.id then
          { it with is_hidden := true, hidden_reason := some HiddenReasonType.admin_moderation }
        else it) := by
  unfold moderate_item at h
  cases hadm : require_admin db sub with
  | error e => simp only [hadm] at h; exact Except.noConfusion h
  | ok admin =>
    simp only [hadm] at h
    cases hfind : db.items.find? (fun it => it.id == i) with
    | none => simp only [hfind] at h; exact Except.noConfusion h
    | some item =>
      simp only [hfind] at h
      simp only [Except.ok.injEq, Prod.mk.injEq] at h
      obtain ⟨hdb, _⟩ := h
      subst hdb
      exact ⟨rfl, rfl, rfl, rfl, item, hfind, rfl⟩

theorem moderate_item_restore_shape {db : DB} {blobs : BlobLog} {i : Nat} {sub : String}
    {now : Nat} {db2 : DB} {blobs2 : BlobLog} {msg : String}
    (h : moderate_item db blobs i ModerateItemAction.restore sub now
        = Except.ok (db2, blobs2, msg)) :
    ∃ admin item, require_admin db sub = Except.ok admin ∧
      getItemRow db i = some item ∧ item.id = i ∧
      db2.users = db.users ∧ db2.resolutions = db.resolutions ∧
      db2.notifications = db.notifications ∧
      db2.items = db.items.map (fun it =>
        if it.id == item.id then { it with is_hidden := false, hidden_reason := none } else it) ∧
      db2.reports = db.reports.map (fun r =>
        if r.item_id == item.id then
          { r with status := ReportStatus.reviewed, reviewed_by := some admin.id,
                   reviewed_at := some now }
        else r) := by
  unfold moderate_item at h
  cases hadm : require_admin db sub with
  | error e => simp only [hadm] at h; exact Except.noConfusion h
  | ok admin =>
    simp only [hadm] at h
    cases hfind : db.items.find? (fun it => it.id == i) with
    | none => simp only [hfind] at h; exact Except.noConfusion h
    | some item =>
      simp only [hfind] at h
      have hid : item.id = i := by simpa using List.find?_some hfind
      simp only [Except.ok.injEq, Prod.mk.injEq] at h
      obtain ⟨hdb, _⟩ := h
      subst hdb
      exact ⟨admin, item, rfl, hfind, hid, rfl, rfl, rfl, rfl, rfl⟩

theorem moderate_item_delete_shape {db : DB} {blobs : BlobLog} {i : Nat} {sub : String}
    {now : Nat} {db2 : DB} {blobs2 : BlobLog} {msg : String}
    (h : moderate_item db blobs i ModerateItemAction.delete sub now
        = Except.ok (db2, blobs2, msg)) :
    ∃ item, getItemRow db i = some item ∧
      db2.users = db.users ∧ db2.notifications = db.notifications ∧
      db2.items = db.items.filter (fun it => it.id != item.id) ∧
      db2.reports = db.reports.filter (fun r => r.item_id != item.id) ∧
      db2.resolutions = db.resolutions.filter (fun r => r.found_item_id != item.id) ∧
      blobs2 = blobs := by
  unfold moderate_item at h
  cases hadm : require_admin db sub with
  | error e => simp only [hadm] at h; exact Except.noConfusion h
  | ok admin =>
    simp only [hadm] at h
    cases hfind : db.items.find? (fun it => it.id == i) with
    | none => simp only [hfind] at h; exact Except.noConfusion h
    | some item =>
      simp only [hfind] at h
      simp only [Except.ok.injEq, Prod.mk.injEq] at h
      obtain ⟨hdb, hblobs, _⟩ := h
      subst hdb
      exact ⟨item, hfind, rfl, rfl, rfl, rfl, rfl, hblobs.symm⟩

theorem google_auth_ok_shape {db : DB} {gid n p e : String} {fid now : Nat} {db2 : DB}
    (h : google_auth db gid n p e fid now = Except.ok db2) :
    db2.items = db.items ∧ db2.reports = db.reports ∧ db2.resolutions = db.resolutions ∧
    db2.notifications = db.notifications := by
  unfold google_auth at h
  cases hfind : db.users.find? (fun u => u.public_id == gid) with
  | none =>
    simp only [hfind] at h
    simp only [Except.ok.injEq] at h
    subst h
    exact ⟨rfl, rfl, rfl, rfl⟩
  | some u =>
    simp only [hfind] at h
    cases hban : u.is_banned with
    | true => rw [if_bool_true hban] at h; exact Except.noConfusion h
    | false =>
      rw [if_bool_false hban] at h
      simp only [Except.ok.injEq] at h
      subst h
      exact ⟨rfl, rfl, rfl, rfl⟩

theorem set_hostel_ok_shape {db : DB} {sub : String} {hostel : HostelType} {db2 : DB}
    (h : set_hostel db sub hostel = Except.ok db2) :
    db2.items = db.items ∧ db2.reports = db.reports ∧ db2.resolutions = db.resolutions ∧
    db2.notifications = db.notifications := by
  unfold set_hostel at h
  cases huser : get_db_user db sub with
  | error e => simp only [huser] at h; exact Except.noConfusion h
  | ok user =>
    simp only [huser] at h
    simp only [Except.ok.injEq] at h
    subst h
    exact ⟨rfl, rfl, rfl, rfl⟩

theorem set_phone_ok_shape {db : DB} {sub phone : String} {db2 : DB}
    (h : set_phone db sub phone = Except.ok db2) :
    db2.items = db.items ∧ db2.reports = db.reports ∧ db2.resolutions = db.resolutions ∧
    db2.notifications = db.notifications := by
  unfold set_phone at h
  cases huser : get_db_user db sub with
  | error e => simp only [huser] at h; exact Except.noConfusion h
  | ok user =>
    simp only [huser] at h
    cases hph : user.phone.isSome with
    | true => rw [if_bool_true hph] at h; exact Except.noConfusion h
    | false =>
      rw [if_bool_false hph] at h
      simp only [Except.ok.injEq] at h
      subst h
      exact ⟨rfl, rfl, rfl, rfl⟩

/-! ## Error-path helpers for banned callers and rolled-back operations -/

theorem require_admin_banned {db : DB} {sub : String} {u : User}
    (hfind : db.users.find? (fun v => v.public_id == sub) = some u)
    (hban : u.is_banned = true) :
    require_admin db sub = Except.error ⟨404, "User not found"⟩ := by
  unfold require_admin
  simp only [get_db_user_banned hfind hban]

theorem report_item_banned {db : DB} {i : Nat} {reason : ReportReason} {sub : String}
    {now : Nat} {u : User}
    (hfind : db.users.find? (fun v => v.public_id == sub) = some u)
    (hban : u.is_banned = true) :
    ∃ e, report_item db i reason sub now = Except.error e := by
  unfold report_item
  cases hfi : db.items.find? (fun it => it.id == i && !it.is_hidden) with
  | none => simp only [hfi]; exact ⟨_, rfl⟩
  | some item =>
    simp only [hfi, get_db_user_banned hfind hban]
    exact ⟨_, rfl⟩

theorem update_item_banned {db : DB} {i : Nat} {upd : ItemUpdateSchema} {sub : String}
    {u : User} (hfind : db.users.find? (fun v => v.public_id == sub) = some u)
    (hban : u.is_banned = true) :
    ∃ e, update_item db i upd sub = Except.error e := by
  unfold update_item
  cases hfi : db.items.find? (fun it => it.id == i && !it.is_hidden) with
  | none => simp only [hfi]; exact ⟨_, rfl⟩
  | some item =>
    simp only [hfi]
    cases hact : (activeResolutionRow db item.id).isSome with
    | true => rw [if_bool_true rfl]; exact ⟨_, rfl⟩
    | false =>
      rw [if_bool_false rfl]
      simp only [get_db_user_banned hfind hban]
      exact ⟨_, rfl⟩

theorem set_hostel_banned {db : DB} {sub : String} {hostel : HostelType} {u : User}
    (hfind : db.users.find? (fun v => v.public_id == sub) = some u)
    (hban : u.is_banned = true) :
    ∃ e, set_hostel db sub hostel = Except.error e := by
  unfold set_hostel
  simp only [get_db_user_banned hfind hban]
  exact ⟨_, rfl⟩

theorem set_phone_banned {db : DB} {sub phone : String} {u : User}
    (hfind : db.users.find? (fun v => v.public_id == sub) = some u)
    (hban : u.is_banned = true) :
    ∃ e, set_phone db sub phone = Except.error e := by
  unfold set_phone
  simp only [get_db_user_banned hfind hban]
  exact ⟨_, rfl⟩

theorem applyOp_report_err {db : DB} {i : Nat} {reason : ReportReason} {sub : String}
    {now : Nat} (h : ∃ e, report_item db i reason sub now = Except.error e) :
    applyOp db (Op.report i reason sub now) = db := by
  obtain ⟨e, he⟩ := h
  unfold applyOp
  simp only [he]

theorem applyOp_update_err {db : DB} {i : Nat} {upd : ItemUpdateSchema} {sub : String}
    (h : ∃ e, update_item db i upd sub = Except.error e) :
    applyOp db (Op.update i upd sub) = db := by
  obtain ⟨e, he⟩ := h
  unfold applyOp
  simp only [he]

theorem applyOp_delete_eq (db : DB) (i : Nat) (sub : String) :
    applyOp db (Op.delete i sub) = db := by
  unfold applyOp
  simp only [delete_item_err]

theorem applyOp_setHostel_err {db : DB} {sub : String} {hostel : HostelType}
    (h : ∃ e, set_hostel db sub hostel = Except.error e) :
    applyOp db (Op.setHostel sub hostel) = db := by
  obtain ⟨e, he⟩ := h
  unfold applyOp
  simp only [he]

theorem applyOp_setPhone_err {db : DB} {sub phone : String}
    (h : ∃ e, set_phone db sub phone = Except.error e) :
    applyOp db (Op.setPhone sub phone) = db := by
  obtain ⟨e, he⟩ := h
  unfold applyOp
  simp only [he]

theorem moderate_user_banned {db : DB} {user_id : Nat} {action : ModerateUserAction}
    {reason : Option String} {ban_days : Option Nat} {adminSub : String} {now : Nat} {u : User}
    (hfind : db.users.find? (fun v => v.public_id == adminSub) = some u)
    (hban : u.is_banned = true) :
    moderate_user db user_id action reason ban_days adminSub now
      = Except.error ⟨404, "User not found"⟩ := by
  unfold moderate_user
  simp only [require_admin_banned hfind hban]

theorem moderate_item_banned {db : DB} {blobs : BlobLog} {item_id : Nat}
    {action : ModerateItemAction} {adminSub : String} {now : Nat} {u : User}
    (hfind : db.users.find? (fun v => v.public_id == adminSub) = some u)
    (hban : u.is_banned = true) :
    moderate_item db blobs item_id action adminSub now
      = Except.error ⟨404, "User not found"⟩ := by
  unfold moderate_item
  simp only [require_admin_banned hfind hban]

theorem applyOp_moderateUser_err {db : DB} {user_id : Nat} {action : ModerateUserAction}
    {reason : Option String} {ban_days : Option Nat} {adminSub : String} {now : Nat}
    {e : HTTPError}
    (h : moderate_user db user_id action reason ban_days adminSub now = Except.error e) :
    applyOp db (Op.moderateUser user_id action reason ban_days adminSub now) = db := by
  unfold applyOp
  simp only [h]

theorem applyOp_moderateItem_err {db : DB} {item_id : Nat} {action : ModerateItemAction}
    {adminSub : String} {now : Nat} {e : HTTPError}
    (h : moderate_item db ⟨[]⟩ item_id action adminSub now = Except.error e) :
    applyOp db (Op.moderateItem item_id action adminSub now) = db := by
  unfold applyOp
  simp only [h]

theorem applyOp_googleAuth_err {db : DB} {gid nm pic em : String} {fid now : Nat}
    {e : HTTPError} (h : google_auth db gid nm pic em fid now = Except.error e) :
    applyOp db (Op.googleAuth gid nm pic em fid now) = db := by
  unfold applyOp
  simp only [h]

theorem applyOp_update_ok {db : DB} {i : Nat} {upd : ItemUpdateSchema} {sub : String}
    {db2 : DB} {n : Nat} (h : update_item db i upd sub = Except.ok (db2, n)) :
    applyOp db (Op.update i upd sub) = db2 := by
  unfold applyOp
  simp only [h]

theorem applyOp_report_ok {db : DB} {i : Nat} {reason : ReportReason} {sub : String}
    {now : Nat} {db2 : DB} {b : Bool} (h : report_item db i reason sub now = Except.ok (db2, b)) :
    applyOp db (Op.report i reason sub now) = db2 := by
  unfold applyOp
  simp only [h]

theorem applyOp_moderateUser_ok {db : DB} {uid : Nat} {act : ModerateUserAction}
    {r0 : Option String} {bd : Option Nat} {adminSub : String} {now : Nat} {db2 : DB}
    {msg : String} (h : moderate_user db uid act r0 bd adminSub now = Except.ok (db2, msg)) :
    applyOp db (Op.moderateUser uid act r0 bd adminSub now) = db2 := by
  unfold applyOp
  simp only [h]

theorem applyOp_moderateItem_ok {db : DB} {i : Nat} {act : ModerateItemAction}
    {adminSub : String} {now : Nat} {db2 : DB} {blobs2 : BlobLog} {msg : String}
    (h : moderate_item db ⟨[]⟩ i act adminSub now = Except.ok (db2, blobs2, msg)) :
    applyOp db (Op.moderateItem i act adminSub now) = db2 := by
  unfold applyOp
  simp only [h]

theorem applyOp_googleAuth_ok {db : DB} {gid nm pic em : String} {fid now : Nat} {db2 : DB}
    (h : google_auth db gid nm pic em fid now = Except.ok db2) :
    applyOp db (Op.googleAuth gid nm pic em fid now) = db2 := by
  unfold applyOp
  simp only [h]

theorem applyOp_setHostel_ok {db : DB} {sub : String} {hostel : HostelType} {db2 : DB}
    (h : set_hostel db sub hostel = Except.ok db2) :
    applyOp db (Op.setHostel sub hostel) = db2 := by
  unfold applyOp
  simp only [h]

theorem applyOp_setPhone_ok {db : DB} {sub ph : String} {db2 : DB}
    (h : set_phone db sub ph = Except.ok db2) :
    applyOp db (Op.setPhone sub ph) = db2 := by
  unfold applyOp
  simp only [h]

/-! ## Claim theorems -/

/-- Claim C1, counterexample: the declared constraints of the resolutions
table (primary key and foreign keys only; src/app/models/resolution.py has
no table_args) do not enforce at-most-one active resolution per found item:
exDbC1 satisfies every declared constraint and holds two pending resolutions
on item 1, so the exclusivity is not storage-enforced. -/
theorem resolution_exclusivity_not_storage_enforced : ¬ StorageEnforcesActiveExclusivity := by
  intro hencl
  exact absurd (hencl exDbC1 (by decide) 1) (by decide)

/-- Claim C1, amended: the resolutions table declares no uniqueness or
exclusivity constraint over active resolutions, so the storage layer admits
a state with two pending resolutions on the same found item; every declared
constraint holds on exDbC1 while item 1 carries two active claims (contrast:
the reports table does declare uq_user_item_report). -/
theorem resolutions_schema_admits_double_claim :
    resolutionsTableConstraintsOK exDbC1 = true ∧
    activeResolutionCount exDbC1 1 = 2 ∧
    reportsTableConstraintsOK exDbC1 = true := by
  refine ⟨by decide, by decide, by decide⟩

/-- Claim C2, code-bug evidence: for the hidden public item of exDbC2, the
detail fetch answers 404 and the listing returns nothing, but the profile
item listing (whose query has no is_hidden filter) returns the hidden item
to an anonymous viewer. -/
theorem profile_listing_leaks_hidden_item :
    get_item exDbC2 1 none = Except.error ⟨404, "Item not found"⟩ ∧
    (get_all_items exDbC2 1 10 none).items = [] ∧
    get_profile exDbC2 "o" none =
      Except.ok
        { user_name := "user", user_email := "", lost_items := [],
          found_items := [mkItem 1 1 ItemType.found VisibilityType.public true
            (some HiddenReasonType.admin_moderation)] } ∧
    (mkItem 1 1 ItemType.found VisibilityType.public true
      (some HiddenReasonType.admin_moderation)).is_hidden = true := by
  exact ⟨rfl, rfl, rfl, rfl⟩

/-- Claim C6, code-bug evidence: the owner delete endpoint filters with the
Python expression (Item.is_hidden is False), a constant-false predicate, so
every delete request answers 404 even for an existing unhidden item owned by
the caller; the admin moderation delete does cascade reports and resolutions
but never deletes the blob (deleted_blobs stays empty). -/
theorem delete_always_not_found_and_admin_delete_skips_blob :
    (∀ (db : DB) (blobs : BlobLog) (item_id : Nat) (sub : String),
       delete_item db blobs item_id sub = Except.error ⟨404, "Item not found"⟩) ∧
    moderate_item exDbC6 ⟨[]⟩ 1 ModerateItemAction.delete "a" 0 =
      Except.ok ({ exDbC6 with items := [], reports := [], resolutions := [] }, ⟨[]⟩,
        "Item deleted successfully") :=
  ⟨delete_item_err, rfl⟩

/-- Claim C10: when every item carrying the requested id is hidden (in
particular when the item is hidden, or when no such item exists at all), the
update endpoint answers exactly the 404 Item-not-found error used for absent
items, for every caller including the owner. -/
theorem update_hidden_item_not_found (db : DB) (item_id : Nat)
    (updates : ItemUpdateSchema) (sub : String)
    (h : ∀ it ∈ db.items, it.id = item_id → it.is_hidden = true) :
    update_item db item_id updates sub = Except.error ⟨404, "Item not found"⟩ := by
  have hnone : db.items.find? (fun it => it.id == item_id && !it.is_hidden) = none := by
    refine List.find?_eq_none.mpr fun x hx => ?_
    intro hpx
    rw [Bool.and_eq_true] at hpx
    have hid : x.id = item_id := beq_iff_eq.mp hpx.1
    have hhid := h x hx hid
    rw [hhid] at hpx
    exact absurd hpx.2 (by simp)
  unfold update_item
  simp only [hnone]

/-- Claim C10 witness: the hidden item of exDbC10 cannot be patched by its
owner and yields the not-found error. -/
theorem update_hidden_item_not_found_check :
    update_item exDbC10 1 exUpdTitle "o" = Except.error ⟨404, "Item not found"⟩ :=
  update_hidden_item_not_found exDbC10 1 exUpdTitle "o" (by decide)

/-- Claim C9, counterexample: the banned caller of exDbC9 is rejected by the
protected report endpoint with status 404 (the identity resolver raises
404 User not found for banned users), which is neither 401 Unauthorized nor
403 Forbidden. -/
theorem banned_rejected_with_not_found_status :
    report_item exDbC9 1 ReportReason.spam "b" 0 = Except.error ⟨404, "User not found"⟩ ∧
    (exDbC9.users.find? (fun v => v.public_id == "b")).map User.is_banned = some true ∧
    ((404 : Nat) ≠ 401 ∧ (404 : Nat) ≠ 403) :=
  ⟨rfl, rfl, by decide⟩

/-- Claim C9, amended: a caller whose persisted record has is_banned true is
rejected before any store change by every protected operation — with 404 from
the identity resolver on ordinary endpoints and 403 at the auth endpoint —
and the rejection ignores ban_until entirely, so a banned user whose
ban_until has passed is still rejected (no implicit auto-unban). -/
theorem banned_user_always_rejected :
    (∀ (db : DB) (sub : String) (u : User),
       db.users.find? (fun v => v.public_id == sub) = some u → u.is_banned = true →
       get_db_user db sub = Except.error ⟨404, "User not found"⟩) ∧
    (∀ (db : DB) (gid n p e : String) (fid now : Nat) (u : User),
       db.users.find? (fun v => v.public_id == gid) = some u → u.is_banned = true →
       google_auth db gid n p e fid now = Except.error ⟨403, "User is banned"⟩) ∧
    (∀ (db : DB) (sub : String) (u : User),
       db.users.find? (fun v => v.public_id == sub) = some u → u.is_banned = true →
       ∀ (i : Nat) (reason : ReportReason) (now : Nat) (upd : ItemUpdateSchema)
         (hostel : HostelType) (ph : String) (uid : Nat) (uact : ModerateUserAction)
         (iact : ModerateItemAction) (r0 : Option String) (bd : Option Nat),
         applyOp db (Op.report i reason sub now) = db ∧
         applyOp db (Op.update i upd sub) = db ∧
         applyOp db (Op.delete i sub) = db ∧
         applyOp db (Op.setHostel sub hostel) = db ∧
         applyOp db (Op.setPhone sub ph) = db ∧
         applyOp db (Op.moderateUser uid uact r0 bd sub now) = db ∧
         applyOp db (Op.moderateItem i iact sub now) = db) := by
  refine ⟨?_, ?_, ?_⟩
  · intro db sub u hfind hban
    exact get_db_user_banned hfind hban
  · intro db gid n p e fid now u hfind hban
    unfold google_auth
    simp only [hfind]
    rw [if_bool_true hban]
  · intro db sub u hfind hban i reason now upd hostel ph uid uact iact r0 bd
    refine ⟨applyOp_report_err (report_item_banned hfind hban),
      applyOp_update_err (update_item_banned hfind hban),
      applyOp_delete_eq db i sub,
      applyOp_setHostel_err (set_hostel_banned hfind hban),
      applyOp_setPhone_err (set_phone_banned hfind hban),
      applyOp_moderateUser_err (moderate_user_banned hfind hban),
      applyOp_moderateItem_err (moderate_item_banned hfind hban)⟩

/-- Claim C9 witness: in exDbC9 (ban_until absent) and exDbC9b (ban_until 10,
already in the past at now = 1000) the banned caller is rejected and no
protected mutation changes the store. -/
theorem banned_user_always_rejected_check :
    get_db_user exDbC9 "b" = Except.error ⟨404, "User not found"⟩ ∧
    get_db_user exDbC9b "b" = Except.error ⟨404, "User not found"⟩ ∧
    google_auth exDbC9b "b" "n" "p" "e" 7 1000 = Except.error ⟨403, "User is banned"⟩ ∧
    applyOp exDbC9b (Op.report 1 ReportReason.spam "b" 1000) = exDbC9b := by
  refine ⟨banned_user_always_rejected.1 exDbC9 "b"
      (mkUser 2 "b" none RoleType.user true none) rfl rfl,
    banned_user_always_rejected.1 exDbC9b "b"
      (mkUser 2 "b" none RoleType.user true (some 10)) rfl rfl,
    banned_user_always_rejected.2.1 exDbC9b "b" "n" "p" "e" 7 1000
      (mkUser 2 "b" none RoleType.user true (some 10)) rfl rfl,
    (banned_user_always_rejected.2.2 exDbC9b "b"
      (mkUser 2 "b" none RoleType.user true (some 10)) rfl rfl 1 ReportReason.spam 1000
      exUpdTitle HostelType.boys "p" 1 ModerateUserAction.warn
      ModerateItemAction.hide none none).1⟩

/-- Claim C4: the uq_user_item_report pair-uniqueness of reports is preserved
by every embedded operation, and a second report attempt by the same user on
the same (existing, unhidden, non-owned) item is translated from the storage
IntegrityError into 409 Conflict with the store left unchanged. -/
theorem report_pair_unique_and_duplicate_conflict :
    (∀ (db : DB) (op : Op),
       pairUnique db.reports = true → pairUnique (applyOp db op).reports = true) ∧
    (∀ (db : DB) (i : Nat) (reason : ReportReason) (sub : String) (now : Nat)
       (user : User) (item : Item),
       get_db_user db sub = Except.ok user →
       db.items.find? (fun it => it.id == i && !it.is_hidden) = some item →
       (item.user_id == user.id) = false →
       (∃ r ∈ db.reports, r.user_id = user.id ∧ r.item_id = i) →
       report_item db i reason sub now
         = Except.error ⟨409, "You have already reported this item"⟩ ∧
       applyOp db (Op.report i reason sub now) = db) := by
  constructor
  · intro db op h
    cases op with
    | update i upd sub =>
      cases hres : update_item db i upd sub with
      | error e => rw [applyOp_update_err ⟨e, hres⟩]; exact h
      | ok pair =>
        obtain ⟨db2, n⟩ := pair
        rw [applyOp_update_ok hres, (update_item_ok_shape hres).2.1]
        exact h
    | delete i sub =>
      rw [applyOp_delete_eq]
      exact h
    | report i reason sub now =>
      cases hres : report_item db i reason sub now with
      | error e => rw [applyOp_report_err ⟨e, hres⟩]; exact h
      | ok pair =>
        obtain ⟨db2, b⟩ := pair
        obtain ⟨item, user, hfi, hid, hhid, huser, howner, hdup, hu2, hr2, hreports, hrest⟩ :=
          report_item_ok_shape hres
        rw [applyOp_report_ok hres, hreports]
        refine pairUnique_append_one db.reports _ h fun s hs => ?_
        have hnot : ¬ ((s.user_id == user.id && s.item_id == item.id) = true) := by
          intro hcon
          have : db.reports.any (fun r => r.user_id == user.id && r.item_id == item.id)
              = true := List.any_eq_true.mpr ⟨s, hs, hcon⟩
          rw [this] at hdup
          exact Bool.noConfusion hdup
        simpa using hnot
    | moderateUser uid act r0 bd adminSub now =>
      cases hres : moderate_user db uid act r0 bd adminSub now with
      | error e => rw [applyOp_moderateUser_err hres]; exact h
      | ok pair =>
        obtain ⟨db2, msg⟩ := pair
        rw [applyOp_moderateUser_ok hres, (moderate_user_ok_shape hres).2.1]
        exact h
    | moderateItem i act adminSub now =>
      cases act with
      | hide =>
        cases hres : moderate_item db ⟨[]⟩ i ModerateItemAction.hide adminSub now with
        | error e => rw [applyOp_moderateItem_err hres]; exact h
        | ok tri =>
          obtain ⟨db2, blobs2, msg⟩ := tri
          rw [applyOp_moderateItem_ok hres, (moderate_item_hide_shape hres).2.1]
          exact h
      | restore =>
        cases hres : moderate_item db ⟨[]⟩ i ModerateItemAction.restore adminSub now with
        | error e => rw [applyOp_moderateItem_err hres]; exact h
        | ok tri =>
          obtain ⟨db2, blobs2, msg⟩ := tri
          obtain ⟨admin, item, hadm, hfind, hid, hu2, hres2, hn2, hitems, hreports⟩ :=
            moderate_item_restore_shape hres
          rw [applyOp_moderateItem_ok hres, hreports]
          refine pairUnique_map_keys db.reports _ (fun r => ?_) h
          cases hcond : (r.item_id == item.id) with
          | true => exact ⟨by rw [if_bool_true rfl], by rw [if_bool_true rfl]⟩
          | false => exact ⟨by rw [if_bool_false rfl], by rw [if_bool_false rfl]⟩
      | delete =>
        cases hres : moderate_item db ⟨[]⟩ i ModerateItemAction.delete adminSub now with
        | error e => rw [applyOp_moderateItem_err hres]; exact h
        | ok tri =>
          obtain ⟨db2, blobs2, msg⟩ := tri
          obtain ⟨item, hfind, hu2, hn2, hitems, hreports, hres2, hblobs⟩ :=
            moderate_item_delete_shape hres
          rw [applyOp_moderateItem_ok hres, hreports]
          exact pairUnique_filter db.reports _ h
    | googleAuth gid nm pic em fid now =>
      cases hres : google_auth db gid nm pic em fid now with
      | error e => rw [applyOp_googleAuth_err hres]; exact h
      | ok db2 =>
        rw [applyOp_googleAuth_ok hres, (google_auth_ok_shape hres).2.1]
        exact h
    | setHostel sub hostel =>
      cases hres : set_hostel db sub hostel with
      | error e => rw [applyOp_setHostel_err ⟨e, hres⟩]; exact h
      | ok db2 =>
        rw [applyOp_setHostel_ok hres, (set_hostel_ok_shape hres).2.1]
        exact h
    | setPhone sub ph =>
      cases hres : set_phone db sub ph with
      | error e => rw [applyOp_setPhone_err ⟨e, hres⟩]; exact h
      | ok db2 =>
        rw [applyOp_setPhone_ok hres, (set_phone_ok_shape hres).2.1]
        exact h
  · intro db i reason sub now user item huser hfi howner hdup
    obtain ⟨r, hr, hru, hri⟩ := hdup
    have hid : item.id = i := by
      have := List.find?_some hfi
      rw [Bool.and_eq_true] at this
      exact beq_iff_eq.mp this.1
    have hany : db.reports.any (fun s => s.user_id == user.id && s.item_id == item.id)
        = true := by
      refine List.any_eq_true.mpr ⟨r, hr, ?_⟩
      rw [Bool.and_eq_true]
      exact ⟨beq_iff_eq.mpr hru, beq_iff_eq.mpr (by rw [hri, hid])⟩
    have herr : report_item db i reason sub now
        = Except.error ⟨409, "You have already reported this item"⟩ := by
      unfold report_item
      simp only [hfi, huser]
      rw [if_bool_false howner, if_bool_true hany]
    exact ⟨herr, applyOp_report_err ⟨_, herr⟩⟩

/-- Claim C4 witness: in exDbC4 user r already reported item 1; the second
attempt answers 409 Conflict and leaves the store unchanged, and the
pair-uniqueness invariant is preserved by that attempt. -/
theorem report_duplicate_conflict_check :
    (report_item exDbC4 1 ReportReason.spam "r" 0
       = Except.error ⟨409, "You have already reported this item"⟩ ∧
     applyOp exDbC4 (Op.report 1 ReportReason.spam "r" 0) = exDbC4) ∧
    pairUnique (applyOp exDbC4 (Op.report 1 ReportReason.spam "r" 0)).reports = true :=
  ⟨report_pair_unique_and_duplicate_conflict.2 exDbC4 1 ReportReason.spam "r" 0
      (mkUser 2 "r" none RoleType.user false none)
      (mkItem 1 1 ItemType.found VisibilityType.public false none) rfl rfl rfl
      ⟨mkReport 1 2 1 ReportStatus.pending, by decide, rfl, rfl⟩,
   report_pair_unique_and_duplicate_conflict.1 exDbC4
      (Op.report 1 ReportReason.spam "r" 0) (by decide)⟩

/-- Claim C5: while an item has a pending or approved resolution every patch
request on it is rejected and the store is unchanged; an accepted patch
touches only the items table, rewrites only the matched item through
applyUpdates, and applyUpdates changes exactly the supplied fields — absent
fields and the non-patchable columns are untouched. -/
theorem update_locked_while_claimed_and_patch_fields :
    (∀ (db : DB) (i : Nat) (upd : ItemUpdateSchema) (sub : String),
       (∃ r ∈ db.resolutions, r.found_item_id = i ∧
          (r.status = StatusType.pending ∨ r.status = StatusType.approved)) →
       (∃ e, update_item db i upd sub = Except.error e) ∧
       applyOp db (Op.update i upd sub) = db) ∧
    (∀ (db : DB) (i : Nat) (upd : ItemUpdateSchema) (sub : String) (db2 : DB) (n : Nat),
       update_item db i upd sub = Except.ok (db2, n) →
       db2.users = db.users ∧ db2.reports = db.reports ∧ db2.resolutions = db.resolutions ∧
       db2.notifications = db.notifications ∧
       ∃ item, db.items.find? (fun it => it.id == i && !it.is_hidden) = some item ∧
         db2.items = db.items.map
           (fun it => if it.id == item.id then applyUpdates it upd else it)) ∧
    (∀ (it : Item) (upd : ItemUpdateSchema),
       (applyUpdates it upd).id = it.id ∧
       (applyUpdates it upd).user_id = it.user_id ∧
       (applyUpdates it upd).type = it.type ∧
       (applyUpdates it upd).image = it.image ∧
       (applyUpdates it upd).is_hidden = it.is_hidden ∧
       (applyUpdates it upd).hidden_reason = it.hidden_reason ∧
       (applyUpdates it upd).created_at = it.created_at ∧
       (upd.title = none → (applyUpdates it upd).title = it.title) ∧
       (upd.location = none → (applyUpdates it upd).location = it.location) ∧
       (upd.description = none → (applyUpdates it upd).description = it.description) ∧
       (upd.category = none → (applyUpdates it upd).category = it.category) ∧
       (upd.visibility = none → (applyUpdates it upd).visibility = it.visibility) ∧
       (upd.date = none → (applyUpdates it upd).date = it.date) ∧
       (∀ t, upd.title = some t → (applyUpdates it upd).title = t) ∧
       (∀ t, upd.location = some t → (applyUpdates it upd).location = t) ∧
       (∀ t, upd.description = some t → (applyUpdates it upd).description = t) ∧
       (∀ t, upd.category = some t → (applyUpdates it upd).category = t) ∧
       (∀ t, upd.visibility = some t → (applyUpdates it upd).visibility = t) ∧
       (∀ t, upd.date = some t → (applyUpdates it upd).date = t)) := by
  refine ⟨?_, ?_, ?_⟩
  · intro db i upd sub hex
    have herr : ∃ e, update_item db i upd sub = Except.error e := by
      unfold update_item
      cases hfi : db.items.find? (fun it => it.id == i && !it.is_hidden) with
      | none => simp only [hfi]; exact ⟨_, rfl⟩
      | some item =>
        simp only [hfi]
        have hid : item.id = i := by
          have := List.find?_some hfi
          rw [Bool.and_eq_true] at this
          exact beq_iff_eq.mp this.1
        have hact : (activeResolutionRow db item.id).isSome = true := by
          obtain ⟨r, hr, hri, hst⟩ := hex
          refine List.find?_isSome.mpr ⟨r, hr, ?_⟩
          rw [Bool.and_eq_true]
          refine ⟨beq_iff_eq.mpr (by rw [hri, hid]), ?_⟩
          rcases hst with hst | hst <;> simp [hst]
        rw [if_bool_true hact]
        exact ⟨_, rfl⟩
    exact ⟨herr, applyOp_update_err herr⟩
  · intro db i upd sub db2 n h
    obtain ⟨hu, hr, hres, hn, item, user, hfi, hact, huser, hown, hfields, hitems, hn2⟩ :=
      update_item_ok_shape h
    exact ⟨hu, hr, hres, hn, item, hfi, hitems⟩
  · intro it upd
    refine ⟨rfl, rfl, rfl, rfl, rfl, rfl, rfl, ?_, ?_, ?_, ?_, ?_, ?_, ?_, ?_, ?_, ?_, ?_, ?_⟩
    · intro h; simp [applyUpdates, h]
    · intro h; simp [applyUpdates, h]
    · intro h; simp [applyUpdates, h]
    · intro h; simp [applyUpdates, h]
    · intro h; simp [applyUpdates, h]
    · intro h; simp [applyUpdates, h]
    · intro t h; simp [applyUpdates, h]
    · intro t h; simp [applyUpdates, h]
    · intro t h; simp [applyUpdates, h]
    · intro t h; simp [applyUpdates, h]
    · intro t h; simp [applyUpdates, h]
    · intro t h; simp [applyUpdates, h]

/-- Claim C5 witness: in exDbC5 the patch on claimed item 1 is rejected with
the store unchanged, while the accepted patch on free item 2 rewrites only
that item and no other table. -/
theorem update_locked_while_claimed_check :
    ((∃ e, update_item exDbC5 1 exUpdTitle "o" = Except.error e) ∧
      applyOp exDbC5 (Op.update 1 exUpdTitle "o") = exDbC5) ∧
    (exDbC5Updated.users = exDbC5.users ∧ exDbC5Updated.reports = exDbC5.reports ∧
      exDbC5Updated.resolutions = exDbC5.resolutions ∧
      exDbC5Updated.notifications = exDbC5.notifications ∧
      ∃ item, exDbC5.items.find? (fun it => it.id == 2 && !it.is_hidden) = some item ∧
        exDbC5Updated.items = exDbC5.items.map
          (fun it => if it.id == item.id then applyUpdates it exUpdTitle else it)) ∧
    (applyUpdates (mkItem 2 1 ItemType.lost VisibilityType.public false none)
      exUpdTitle).user_id = 1 :=
  ⟨update_locked_while_claimed_and_patch_fields.1 exDbC5 1 exUpdTitle "o"
      ⟨mkResolution 1 2 1 StatusType.pending, by decide, rfl, Or.inl rfl⟩,
   update_locked_while_claimed_and_patch_fields.2.1 exDbC5 2 exUpdTitle "o"
      exDbC5Updated 2 rfl,
   (update_locked_while_claimed_and_patch_fields.2.2
      (mkItem 2 1 ItemType.lost VisibilityType.public false none) exUpdTitle).2.1⟩

/-- Claim C7: a successful admin restore clears is_hidden and hidden_reason
and rewrites every report of that item — in particular every pending one —
to reviewed, stamped with the acting admin id and the request timestamp;
and no embedded operation other than a restore or an item delete ever
removes or changes a stored report, so restore is the only exit from
pending short of item deletion. -/
theorem restore_reviews_reports_and_is_only_exit_from_pending :
    (∀ (db : DB) (blobs : BlobLog) (i : Nat) (sub : String) (now : Nat)
       (db2 : DB) (blobs2 : BlobLog) (msg : String),
       moderate_item db blobs i ModerateItemAction.restore sub now
         = Except.ok (db2, blobs2, msg) →
       ∃ admin item, require_admin db sub = Except.ok admin ∧ admin.role = RoleType.admin ∧
         getItemRow db i = some item ∧
         getItemRow db2 i = some { item with is_hidden := false, hidden_reason := none } ∧
         db2.reports = db.reports.map (fun r =>
           if r.item_id == item.id then
             { r with status := ReportStatus.reviewed, reviewed_by := some admin.id,
                      reviewed_at := some now }
           else r) ∧
         (∀ r ∈ db.reports, r.item_id = i →
            { r with status := ReportStatus.reviewed, reviewed_by := some admin.id,
                     reviewed_at := some now } ∈ db2.reports)) ∧
    (∀ (db : DB) (op : Op) (r : Report), r ∈ db.reports →
       isRestoreOp op = false → isItemDeleteOp op = false →
       r ∈ (applyOp db op).reports) := by
  constructor
  · intro db blobs i sub now db2 blobs2 msg h
    obtain ⟨admin, item, hadm, hfind, hid, hu2, hres2, hn2, hitems, hreports⟩ :=
      moderate_item_restore_shape h
    have hfind2 : db.items.find? (fun it => it.id == i) = some item := hfind
    refine ⟨admin, item, hadm, (require_admin_ok hadm).2, hfind, ?_, ?_, ?_⟩
    · rw [hid] at hitems
      have hmap := find?_map_cond db.items i
        (fun it => { it with is_hidden := false, hidden_reason := none })
        (fun x hx => hx)
      unfold getItemRow
      rw [hitems, hmap, hfind2, Option.map_some', if_bool_true (beq_iff_eq.mpr hid)]
    · exact hreports
    · intro r hr hri
      rw [hreports]
      refine List.mem_map.mpr ⟨r, hr, ?_⟩
      rw [if_bool_true (beq_iff_eq.mpr (by rw [hri, hid]))]
  · intro db op r hr hrest hdel
    cases op with
    | update i upd sub =>
      cases hres : update_item db i upd sub with
      | error e => rw [applyOp_update_err ⟨e, hres⟩]; exact hr
      | ok pair =>
        obtain ⟨db2, n⟩ := pair
        rw [applyOp_update_ok hres, (update_item_ok_shape hres).2.1]
        exact hr
    | delete i sub =>
      rw [applyOp_delete_eq]
      exact hr
    | report i reason sub now =>
      cases hres : report_item db i reason sub now with
      | error e => rw [applyOp_report_err ⟨e, hres⟩]; exact hr
      | ok pair =>
        obtain ⟨db2, b⟩ := pair
        obtain ⟨item, user, hfi, hid, hhid, huser, howner, hdup, hu2, hr2, hreports, hrest2⟩ :=
          report_item_ok_shape hres
        rw [applyOp_report_ok hres, hreports]
        exact List.mem_append_left _ hr
    | moderateUser uid act r0 bd adminSub now =>
      cases hres : moderate_user db uid act r0 bd adminSub now with
      | error e => rw [applyOp_moderateUser_err hres]; exact hr
      | ok pair =>
        obtain ⟨db2, msg⟩ := pair
        rw [applyOp_moderateUser_ok hres, (moderate_user_ok_shape hres).2.1]
        exact hr
    | moderateItem i act adminSub now =>
      cases act with
      | hide =>
        cases hres : moderate_item db ⟨[]⟩ i ModerateItemAction.hide adminSub now with
        | error e => rw [applyOp_moderateItem_err hres]; exact hr
        | ok tri =>
          obtain ⟨db2, blobs2, msg⟩ := tri
          rw [applyOp_moderateItem_ok hres, (moderate_item_hide_shape hres).2.1]
          exact hr
      | restore => simp [isRestoreOp] at hrest
      | delete => simp [isItemDeleteOp] at hdel
    | googleAuth gid nm pic em fid now =>
      cases hres : google_auth db gid nm pic em fid now with
      | error e => rw [applyOp_googleAuth_err hres]; exact hr
      | ok db2 =>
        rw [applyOp_googleAuth_ok hres, (google_auth_ok_shape hres).2.1]
        exact hr
    | setHostel sub hostel =>
      cases hres : set_hostel db sub hostel with
      | error e => rw [applyOp_setHostel_err ⟨e, hres⟩]; exact hr
      | ok db2 =>
        rw [applyOp_setHostel_ok hres, (set_hostel_ok_shape hres).2.1]
        exact hr
    | setPhone sub ph =>
      cases hres : set_phone db sub ph with
      | error e => rw [applyOp_setPhone_err ⟨e, hres⟩]; exact hr
      | ok db2 =>
        rw [applyOp_setPhone_ok hres, (set_phone_ok_shape hres).2.1]
        exact hr

/-- Claim C7 witness: restoring item 1 of exDbC7 at time 100 clears the
hidden fields and stamps both pending reports as reviewed by admin 9, and a
non-restore operation leaves the pending report in place. -/
theorem restore_reviews_reports_check :
    (∃ admin item, require_admin exDbC7 "a" = Except.ok admin ∧
       admin.role = RoleType.admin ∧
       getItemRow exDbC7 1 = some item ∧
       getItemRow exDbC7Restored 1
         = some { item with is_hidden := false, hidden_reason := none } ∧
       exDbC7Restored.reports = exDbC7.reports.map (fun r =>
         if r.item_id == item.id then
           { r with status := ReportStatus.reviewed, reviewed_by := some admin.id,
                    reviewed_at := some 100 }
         else r) ∧
       (∀ r ∈ exDbC7.reports, r.item_id = 1 →
          { r with status := ReportStatus.reviewed, reviewed_by := some admin.id,
                   reviewed_at := some 100 } ∈ exDbC7Restored.reports)) ∧
    mkReport 1 2 1 ReportStatus.pending ∈
      (applyOp exDbC7 (Op.setHostel "o" HostelType.boys)).reports :=
  ⟨restore_reviews_reports_and_is_only_exit_from_pending.1 exDbC7 ⟨[]⟩ 1 "a" 100
      exDbC7Restored ⟨[]⟩ "Item restored successfully" rfl,
   restore_reviews_reports_and_is_only_exit_from_pending.2 exDbC7
      (Op.setHostel "o" HostelType.boys) (mkReport 1 2 1 ReportStatus.pending)
      (by decide) rfl rfl⟩

theorem find?_ext {α : Type u} (l : List α) (p q : α → Bool) (h : ∀ x, p x = q x) :
    l.find? p = l.find? q := by
  induction l with
  | nil => rfl
  | cons z zs ih =>
    cases hz : q z with
    | true => simp [List.find?, h z, hz]
    | false => simp [List.find?, h z, hz, ih]

/-- get_item on an authenticated token, with the let-bound viewer fields
inlined. -/
theorem get_item_some_eq (db : DB) (i : Nat) (tp : TokenPayload) :
    get_item db i (some tp) =
      (match (db.items.find? (fun it =>
            it.id == i && ((tp.role == RoleType.admin) || !it.is_hidden))).bind
          (fun it => (db.users.find? (fun u => u.id == it.user_id)).map (fun u => (it, u))) with
       | none => Except.error ⟨404, "Item not found"⟩
       | some (item, owner) =>
         if item.visibility != VisibilityType.public
             && !(hostelMatches item.visibility tp.hostel) then
           Except.error ⟨403, "Unauthorized to view this item"⟩
         else
           Except.ok ⟨item, owner.public_id, owner.name,
             match activeResolutionRow db item.id with
             | some r => statusStr r.status
             | none => "none"⟩) := rfl

theorem get_item_isOk_elim {db : DB} {i : Nat} {tp : TokenPayload}
    (h : (get_item db i (some tp)).isOk = true) :
    ∃ item owner,
      db.items.find? (fun it =>
        it.id == i && ((tp.role == RoleType.admin) || !it.is_hidden)) = some item ∧
      db.users.find? (fun u => u.id == item.user_id) = some owner ∧
      (item.visibility != VisibilityType.public
        && !(hostelMatches item.visibility tp.hostel)) = false := by
  rw [get_item_some_eq] at h
  cases hfind : db.items.find? (fun it =>
      it.id == i && ((tp.role == RoleType.admin) || !it.is_hidden)) with
  | none =>
    simp only [hfind, Option.none_bind] at h
    exact Bool.noConfusion h
  | some item =>
    simp only [hfind, Option.some_bind] at h
    cases howner : db.users.find? (fun u => u.id == item.user_id) with
    | none =>
      simp only [howner, Option.map_none'] at h
      exact Bool.noConfusion h
    | some owner =>
      simp only [howner, Option.map_some'] at h
      cases hvis : (item.visibility != VisibilityType.public
          && !(hostelMatches item.visibility tp.hostel)) with
      | true =>
        rw [if_bool_true hvis] at h
        exact Bool.noConfusion h
      | false => exact ⟨item, owner, rfl, howner, hvis⟩

theorem get_item_isOk_intro {db : DB} {i : Nat} {tp : TokenPayload} {item owner : _}
    (hfind : db.items.find? (fun it =>
        it.id == i && ((tp.role == RoleType.admin) || !it.is_hidden)) = some item)
    (howner : db.users.find? (fun u => u.id == item.user_id) = some owner)
    (hvis : (item.visibility != VisibilityType.public
        && !(hostelMatches item.visibility tp.hostel)) = false) :
    (get_item db i (some tp)).isOk = true := by
  rw [get_item_some_eq]
  simp only [hfind, Option.some_bind, howner, Option.map_some']
  rw [if_bool_false hvis]
  rfl

/-- Claim C8, counterexample: exDbC8 holds an unhidden girls-scoped item that
a girls-affiliated non-admin can fetch, while an admin whose token carries no
hostel is refused with 403 — so an admin does not see every item. -/
theorem admin_blocked_by_affiliation_scope :
    get_item exDbC8 1 (some ⟨"a", none, RoleType.admin⟩)
      = Except.error ⟨403, "Unauthorized to view this item"⟩ ∧
    (get_item exDbC8 1 (some ⟨"g", some HostelType.girls, RoleType.user⟩)).isOk = true :=
  ⟨rfl, rfl⟩

/-- Claim C8, amended: for a fixed affiliation the detail-fetch visibility is
monotonic in the admin flag, and an admin sees every item whose visibility is
public or matches the admin token affiliation — including hidden items — but
the affiliation check still applies to admins, so items scoped to another
affiliation stay invisible to them. -/
theorem admin_visibility_monotone_within_affiliation :
    (∀ (db : DB) (i : Nat) (hostel : Option HostelType) (sub sub2 : String),
       idsUnique db.items = true →
       (get_item db i (some ⟨sub, hostel, RoleType.user⟩)).isOk = true →
       (get_item db i (some ⟨sub2, hostel, RoleType.admin⟩)).isOk = true) ∧
    (∀ (db : DB) (i : Nat) (it : Item) (hostel : Option HostelType) (sub : String),
       idsUnique db.items = true →
       getItemRow db i = some it →
       (db.users.find? (fun u => u.id == it.user_id)).isSome = true →
       (it.visibility = VisibilityType.public ∨ hostelMatches it.visibility hostel = true) →
       (get_item db i (some ⟨sub, hostel, RoleType.admin⟩)).isOk = true) := by
  constructor
  · intro db i hostel sub sub2 hu hok
    obtain ⟨item, owner, hfind, howner, hvis⟩ := get_item_isOk_elim hok
    have hfindU : db.items.find? (fun it => it.id == i && !it.is_hidden) = some item := by
      rw [← hfind]
      exact (find?_ext db.items _ _
        (fun x => by cases hxi : (x.id == i) <;> cases hxh : x.is_hidden <;> rfl)).symm
    have hprops := List.find?_some hfindU
    rw [Bool.and_eq_true] at hprops
    have hid : item.id = i := beq_iff_eq.mp hprops.1
    have hmem : item ∈ db.items := List.mem_of_find?_eq_some hfindU
    have hfindAdmin : db.items.find? (fun it =>
        it.id == i &&
          (((⟨sub2, hostel, RoleType.admin⟩ : TokenPayload).role == RoleType.admin)
            || !it.is_hidden)) = some item := by
      rw [find?_ext db.items _ (fun it => it.id == item.id) (fun x => by simp [hid])]
      exact find?_unique_pred hu hmem _ (beq_iff_eq.mpr rfl) (fun y hy => beq_iff_eq.mp hy)
    exact get_item_isOk_intro hfindAdmin howner hvis
  · intro db i it hostel sub hu hrow howner hvis
    obtain ⟨owner, howner2⟩ := Option.isSome_iff_exists.mp howner
    have hid : it.id = i := by
      have := List.find?_some hrow
      exact beq_iff_eq.mp this
    have hmem : it ∈ db.items := List.mem_of_find?_eq_some hrow
    have hfindAdmin : db.items.find? (fun x =>
        x.id == i &&
          (((⟨sub, hostel, RoleType.admin⟩ : TokenPayload).role == RoleType.admin)
            || !x.is_hidden)) = some it := by
      rw [find?_ext db.items _ (fun x => x.id == it.id) (fun x => by simp [hid])]
      exact find?_unique_pred hu hmem _ (beq_iff_eq.mpr rfl) (fun y hy => beq_iff_eq.mp hy)
    refine get_item_isOk_intro hfindAdmin howner2 ?_
    rcases hvis with hv | hv
    · simp [hv]
    · simp [hv]

/-- Claim C8 witness: in exDbC8, visibility of the girls-scoped item is
monotone from the girls non-admin to a girls admin, and an admin token with
the girls hostel sees the item directly. -/
theorem admin_visibility_monotone_check :
    (get_item exDbC8 1 (some ⟨"a2", some HostelType.girls, RoleType.admin⟩)).isOk = true ∧
    (get_item exDbC8 1 (some ⟨"a3", some HostelType.girls, RoleType.admin⟩)).isOk = true :=
  ⟨admin_visibility_monotone_within_affiliation.1 exDbC8 1 (some HostelType.girls)
      "g" "a2" (by decide) rfl,
   admin_visibility_monotone_within_affiliation.2 exDbC8 1
      (mkItem 1 1 ItemType.found VisibilityType.girls false none)
      (some HostelType.girls) "a3" (by decide) rfl rfl (Or.inr rfl)⟩

theorem getItemRow_map_replace (l : List Item) (j i : Nat) (c : Item) (hj : j = i)
    (hc : c.id = i) {x : Item} (hx : l.find? (fun it => it.id == i) = some x) :
    (l.map (fun it => if it.id == j then c else it)).find? (fun it => it.id == i)
      = some c := by
  subst hj
  rw [find?_map_cond l j (fun z => c) (fun z hz => hc), hx, Option.map_some',
    if_bool_true (beq_iff_eq.mpr (show x.id = j by simpa using List.find?_some hx))]

theorem C3Inv_step (i : Nat) (db : DB) (reason : ReportReason) (sub : String) (now : Nat)
    (h : C3Inv i db) : C3Inv i (applyOp db (Op.report i reason sub now)) := by
  obtain ⟨hu, hcase⟩ := h
  rcases hcase with ⟨⟨it, hit, hhid⟩, hcount⟩ | ⟨⟨it, hit, hhid⟩, hcount⟩
  · cases hres : report_item db i reason sub now with
    | error e =>
      rw [applyOp_report_err ⟨e, hres⟩]
      exact ⟨hu, Or.inl ⟨⟨it, hit, hhid⟩, hcount⟩⟩
    | ok pair =>
      obtain ⟨db2, b⟩ := pair
      rw [applyOp_report_ok hres]
      obtain ⟨item, user, hfi, hid, hhid2, huser, howner, hdup, hu2, hr2, hreports, hbranch⟩ :=
        report_item_ok_shape hres
      have hmemIt : it ∈ db.items := List.mem_of_find?_eq_some hit
      have hitid : it.id = i := by simpa using List.find?_some hit
      rcases hbranch with ⟨hth, hitems, hnotifs⟩ | ⟨hth, hitems, hnotifs⟩
      · have hg : ∀ x : Item,
            ((if x.id == item.id then
                { item with is_hidden := true,
                            hidden_reason := some HiddenReasonType.auto_report_threshold }
              else x)).id = x.id := by
          intro x
          cases hcnd : (x.id == item.id) with
          | true =>
            rw [if_bool_true rfl]
            exact (beq_iff_eq.mp hcnd).symm
          | false => rw [if_bool_false rfl]
        constructor
        · rw [hitems, idsUnique_map db.items _ hg]
          exact hu
        · refine Or.inr ⟨⟨{ item with is_hidden := true, hidden_reason := some HiddenReasonType.auto_report_threshold }, ?_, ?_⟩, ?_⟩
          · show db2.items.find? (fun x => x.id == i) = _
            rw [hitems]
            exact getItemRow_map_replace db.items item.id i _ hid hid hit
          · rfl
          · show (db2.notifications.filter (fun n =>
              n.type == NotificationType.system_notice && n.item_id == some i)).length = 1
            rw [hnotifs, List.filter_append, List.length_append]
            have hz : (db.notifications.filter (fun n =>
                n.type == NotificationType.system_notice && n.item_id == some i)).length = 0 :=
              hcount
            rw [hz]
            simp [hid]
      · refine ⟨?_, Or.inl ⟨⟨it, ?_, hhid⟩, ?_⟩⟩
        · rw [hitems]
          exact hu
        · show db2.items.find? (fun x => x.id == i) = some it
          rw [hitems]
          exact hit
        · show (db2.notifications.filter (fun n =>
            n.type == NotificationType.system_notice && n.item_id == some i)).length = 0
          rw [hnotifs]
          exact hcount
  · have hitid : it.id = i := by simpa using List.find?_some hit
    have hnone : db.items.find? (fun x => x.id == i && !x.is_hidden) = none := by
      refine List.find?_eq_none.mpr fun x hx => ?_
      intro hpx
      rw [Bool.and_eq_true] at hpx
      have hxid : x.id = i := beq_iff_eq.mp hpx.1
      have hxit : x = it :=
        mem_id_unique hu hx (List.mem_of_find?_eq_some hit) (by rw [hxid, hitid])
      have h2 := hpx.2
      rw [hxit, hhid] at h2
      exact absurd h2 (by simp)
    have herr : ∃ e, report_item db i reason sub now = Except.error e := by
      unfold report_item
      simp only [hnone]
      exact ⟨_, rfl⟩
    rw [applyOp_report_err herr]
    exact ⟨hu, Or.inr ⟨⟨it, hit, hhid⟩, hcount⟩⟩

theorem C3Inv_run (i : Nat) (db : DB) (ops : List (ReportReason × String × Nat))
    (h : C3Inv i db) : C3Inv i (runReports db i ops) := by
  induction ops generalizing db with
  | nil => exact h
  | cons op rest ih => exact ih _ (C3Inv_step i db op.1 op.2.1 op.2.2 h)

/-- Claim C3: after a successful report insert on an unhidden item, when the
pending-report count (including the new row) has reached 5 the item is hidden
with reason auto_report_threshold and exactly one system_notice notification
to the item owner exists, and below 5 the item and its notifications are
untouched; moreover over any sequence of report attempts starting from a
state with no auto-hide notification, at most one owner notification is ever
produced, and exactly one iff the item ended up hidden. -/
theorem report_threshold_hides_once (db : DB) (i : Nat) (it : Item)
    (hu : idsUnique db.items = true)
    (hit : getItemRow db i = some it)
    (hhid : it.is_hidden = false)
    (hn : autoHideNotifCount db i = 0) :
    (∀ (reason : ReportReason) (sub : String) (now : Nat) (db2 : DB) (b : Bool),
       report_item db i reason sub now = Except.ok (db2, b) →
       (5 ≤ pendingReportCount db2 i →
          (∃ it2, getItemRow db2 i = some it2 ∧ it2.is_hidden = true ∧
             it2.hidden_reason = some HiddenReasonType.auto_report_threshold) ∧
          autoHideNotifCount db2 i = 1 ∧
          (∃ n ∈ db2.notifications, n.type = NotificationType.system_notice ∧
             n.user_id = it.user_id ∧ n.item_id = some i)) ∧
       (pendingReportCount db2 i < 5 →
          getItemRow db2 i = some it ∧ autoHideNotifCount db2 i = 0)) ∧
    (∀ ops : List (ReportReason × String × Nat),
       autoHideNotifCount (runReports db i ops) i ≤ 1 ∧
       (autoHideNotifCount (runReports db i ops) i = 1 ↔
          ∃ it2, getItemRow (runReports db i ops) i = some it2 ∧ it2.is_hidden = true)) := by
  constructor
  · intro reason sub now db2 b hres
    obtain ⟨item, user, hfi, hid, hhid2, huser, howner, hdup, hu2, hr2, hreports, hbranch⟩ :=
      report_item_ok_shape hres
    have hmemIt : it ∈ db.items := List.mem_of_find?_eq_some hit
    have hmemItem : item ∈ db.items := by
      have := List.mem_of_find?_eq_some hfi
      exact this
    have hitid : it.id = i := by simpa using List.find?_some hit
    have hsame : item = it := mem_id_unique hu hmemItem hmemIt (by rw [hid, hitid])
    constructor
    · intro h5
      rcases hbranch with ⟨hth, hitems, hnotifs⟩ | ⟨hth, hitems, hnotifs⟩
      · refine ⟨⟨{ item with is_hidden := true, hidden_reason := some HiddenReasonType.auto_report_threshold }, ?_, rfl, rfl⟩, ?_, ?_⟩
        · show db2.items.find? (fun x => x.id == i) = _
          rw [hitems]
          exact getItemRow_map_replace db.items item.id i _ hid hid hit
        · show (db2.notifications.filter (fun n =>
            n.type == NotificationType.system_notice && n.item_id == some i)).length = 1
          rw [hnotifs, List.filter_append, List.length_append]
          have hz : (db.notifications.filter (fun n =>
              n.type == NotificationType.system_notice && n.item_id == some i)).length = 0 :=
            hn
          rw [hz]
          simp [hid]
        · exact ⟨{ id := freshNotificationId { db with reports := db2.reports }, created_at := now, user_id := item.user_id, type := NotificationType.system_notice, title := "Your item has been hidden", message := "Your item " ++ item.title ++ " has been hidden due to multiple reports from users.", item_id := some item.id, resolution_id := none, is_read := false }, by rw [hnotifs]; exact List.mem_append_right _ (List.mem_singleton.mpr rfl), rfl, by rw [hsame], by rw [hid]⟩
      · exact absurd h5 (Nat.not_le.mpr hth)
    · intro hlt
      rcases hbranch with ⟨hth, hitems, hnotifs⟩ | ⟨hth, hitems, hnotifs⟩
      · exact absurd hth (Nat.not_le.mpr hlt)
      · constructor
        · show db2.items.find? (fun x => x.id == i) = some it
          rw [hitems]
          exact hit
        · show (db2.notifications.filter (fun n =>
            n.type == NotificationType.system_notice && n.item_id == some i)).length = 0
          rw [hnotifs]
          exact hn
  · intro ops
    have hinv := C3Inv_run i db ops ⟨hu, Or.inl ⟨⟨it, hit, hhid⟩, hn⟩⟩
    obtain ⟨hu2, hcase⟩ := hinv
    rcases hcase with ⟨⟨it2, hit2, hh2⟩, hc⟩ | ⟨⟨it2, hit2, hh2⟩, hc⟩
    · refine ⟨by rw [hc]; exact Nat.zero_le 1, ?_, ?_⟩
      · intro h1
        rw [hc] at h1
        exact absurd h1 (by decide)
      · rintro ⟨it3, hit3, hh3⟩
        have he : it2 = it3 := Option.some.inj (hit2.symm.trans hit3)
        rw [← he, hh2] at hh3
        exact absurd hh3 (by decide)
    · exact ⟨Nat.le_of_eq hc, fun _ => ⟨it2, hit2, hh2⟩, fun _ => hc⟩

/-- Claim C3 witness: running the six report attempts of exOpsC3 (five
distinct reporters, then one rejected repeat) against the fresh item of
exDbC3 yields at most one auto-hide owner notification, and exactly one
since the item ended hidden. -/
theorem report_threshold_hides_once_check :
    autoHideNotifCount (runReports exDbC3 1 exOpsC3) 1 ≤ 1 ∧
    (autoHideNotifCount (runReports exDbC3 1 exOpsC3) 1 = 1 ↔
       ∃ it2, getItemRow (runReports exDbC3 1 exOpsC3) 1 = some it2 ∧
         it2.is_hidden = true) :=
  (report_threshold_hides_once exDbC3 1
    (mkItem 1 1 ItemType.found VisibilityType.public false none)
    (by decide) rfl rfl rfl).2 exOpsC3

end Retrievo
